import Mathlib

/-!
Verification of the llm-weaver request-routing core against its
natural-language specification.

The development shallowly embeds the Python sources of the repository:

* `app/services/load_balancer.py` — `LoadBalancerService` (health predicate,
  healthy-channel filtering, the four selection strategies,
  `select_optimal_channel`, `record_request_result`, cache/sticky routing,
  `analyze_channel_performance`);
* `app/api/v1/openai_compat.py` — the chat-completions routing pipeline
  (`chat_completions`, `non_stream_chat_completion`, `stream_chat_completion`,
  `count_tokens`, `calculate_cost`, the Anthropic adapter branch);
* `app/core/security.py` — `mask_api_key`;
* `app/core/exceptions.py` / `app/main.py` — the error taxonomy and the HTTP
  status each error kind is surfaced with.

Modelling conventions:

* `datetime` values are integers counting seconds (`timedelta(minutes=k)`
  becomes `k * 60`).
* Python `int` is `Int`/`Nat`; Python `float` quantities (random draws,
  success rates, scores, costs) are `ℚ`.  Channel weights and latencies are
  `Int`, as in the source, so cumulative weight sums are integer sums.
* Python dictionaries held in `LoadBalancerService.__init__` become function
  fields of `LBState`; `defaultdict(int)` becomes a total function into `Nat`
  (deletion writes `0` back, which is exactly what a later read observes).
* each source random draw (`random.uniform`, `random.choice`) becomes an
  explicit parameter: a rational `r` for `random.uniform(0, total_weight)` and
  a natural `i` for `random.choice` (reduced modulo the candidate count).
* database reads become list parameters: the `select(Channel, ModelMapping)`
  join is `queryChannels`, the `RequestLog` query inside
  `analyze_channel_performance` is a filter over a `List RequestLogRec`.
* `list.sort` / `sorted` (Python's stable sort) is embedded as
  `List.insertionSort`, which is also stable, hence extensionally identical.
-/

/-- CostPair mirrors one `{input, output}` entry of `config.model_costs` or
`config.default_costs`; the fields are optional because a JSON dict may lack
either key (`cost_config.get("input", 0.01)`). -/
structure CostPair where
  input : Option ℚ
  output : Option ℚ
deriving DecidableEq

/-- Channel embeds `app/db/models/channel.py` restricted to the fields the
routing core reads: `id`, `type`, `weight`, `status` and the cost-related
parts of `config`.  `model_costs` is an association list standing for the
JSON dict; `default_costs = none` covers both a missing and an empty
(falsy) `default_costs` dict. -/
structure Channel where
  id : Nat
  type : String
  weight : Int
  status : String
  model_costs : List (String × CostPair)
  default_costs : Option CostPair
deriving DecidableEq

/-- ModelMapping embeds `app/db/models/model_mapping.py`: a link from a
public `model_id` to an upstream `mapped_model` for one channel. -/
structure ModelMapping where
  channel_id : Nat
  model_id : String
  mapped_model : Option String
deriving DecidableEq

/-- ChanMap is one row of the `select(Channel, ModelMapping)` join used by
`select_optimal_channel`. -/
abbrev ChanMap := Channel × ModelMapping

/-- ChannelHealthStatus embeds the dataclass of the same name (the fields the
fast-path health predicate reads). -/
structure ChannelHealthStatus where
  channel_id : Nat
  is_healthy : Bool
  last_check_time : Int
  consecutive_failures : Nat
deriving DecidableEq

/-- CacheRoutingInfo embeds the dataclass of the same name (sticky-route
entry). -/
structure CacheRoutingInfo where
  channel_id : Nat
  model : String
  has_cache_enabled : Bool
  last_used_at : Int
  consecutive_hits : Nat
deriving DecidableEq

/-- ChannelPerformanceMetrics embeds the dataclass of the same name. -/
structure ChannelPerformanceMetrics where
  channel_id : Nat
  model : String
  avg_latency_ms : ℚ
  p50_latency_ms : ℚ
  p95_latency_ms : ℚ
  p99_latency_ms : ℚ
  success_rate : ℚ
  total_requests : Nat
  error_count : Nat
  cached_requests : Nat
  cache_hit_rate : ℚ
  calculated_at : Int

/-- LoadBalanceStrategy embeds the enum of the same name. -/
inductive LoadBalanceStrategy where
  | random
  | weighted_random
  | lowest_cost
  | best_performance
deriving DecidableEq

/-- RequestLogRec embeds `app/db/models/request_log.py` restricted to the
columns `analyze_channel_performance` reads. -/
structure RequestLogRec where
  channel_id : Nat
  model : String
  status : String
  latency_ms : Option Int
  created_at : Int
deriving DecidableEq

/-- LBState embeds the mutable attributes of `LoadBalancerService.__init__`:
the four in-memory tables and the configuration parameters. -/
structure LBState where
  health_status : Nat → Option ChannelHealthStatus
  consecutive_failures : Nat → Nat
  cache_routing : Nat × String → Option CacheRoutingInfo
  performance_metrics : Nat × String → Option ChannelPerformanceMetrics
  metrics_window_minutes : Int
  cache_routing_ttl_minutes : Int
  max_consecutive_failures : Nat
  default_strategy : LoadBalanceStrategy
  enable_cache_tracking : Bool

/-- set_cache_tracking embeds `LoadBalancerService.set_cache_tracking`. -/
def set_cache_tracking (s : LBState) (enabled : Bool) : LBState :=
  { s with enable_cache_tracking := enabled }

/-- is_channel_healthy embeds `LoadBalancerService.is_channel_healthy`:
refuse a channel whose consecutive-failure counter reached the maximum;
otherwise trust a stored probe result younger than 5 minutes; otherwise
report healthy. -/
def is_channel_healthy (s : LBState) (now : Int) (channel_id : Nat) : Bool :=
  if s.consecutive_failures channel_id ≥ s.max_consecutive_failures then
    false
  else
    match s.health_status channel_id with
    | some st => if now - st.last_check_time < 5 * 60 then st.is_healthy else true
    | none => true

/-- filter_healthy_channels embeds
`LoadBalancerService._filter_healthy_channels`: keep the healthy rows, and
fall back to the whole list when none is healthy. -/
def filter_healthy_channels (s : LBState) (now : Int) (channels : List ChanMap) :
    List ChanMap :=
  let healthy := channels.filter (fun cm => is_channel_healthy s now cm.1.id)
  if healthy.isEmpty then channels else healthy

/-- get_cache_routing_preference embeds
`LoadBalancerService.get_cache_routing_preference` as a read: `none` when
tracking is disabled, when no entry exists, or when the entry's TTL has
lapsed.  (The source also deletes a lapsed entry from the table; the deletion
changes no observable read, because every later read of a lapsed entry also
returns `None`.) -/
def get_cache_routing_preference (s : LBState) (now : Int) (user_id : Nat)
    (model : String) : Option CacheRoutingInfo :=
  if ¬ s.enable_cache_tracking then none
  else
    match s.cache_routing (user_id, model) with
    | none => none
    | some info =>
      if now - info.last_used_at > s.cache_routing_ttl_minutes * 60 then none
      else some info

/-- update_cache_routing embeds `LoadBalancerService.update_cache_routing`. -/
def update_cache_routing (s : LBState) (now : Int) (user_id : Nat)
    (model : String) (channel_id : Nat) (has_cache_enabled : Bool) : LBState :=
  if ¬ s.enable_cache_tracking then s
  else
    match s.cache_routing (user_id, model) with
    | some existing =>
      if existing.channel_id = channel_id then
        { s with cache_routing := fun k =>
            if k = (user_id, model) then
              some { existing with
                       consecutive_hits := existing.consecutive_hits + 1,
                       last_used_at := now }
            else s.cache_routing k }
      else
        { s with cache_routing := fun k =>
            if k = (user_id, model) then
              some ⟨channel_id, model, has_cache_enabled, now, 1⟩
            else s.cache_routing k }
    | none =>
      { s with cache_routing := fun k =>
          if k = (user_id, model) then
            some ⟨channel_id, model, has_cache_enabled, now, 1⟩
          else s.cache_routing k }

/-- record_request_result embeds `LoadBalancerService.record_request_result`.
On success the failure counter is deleted (a later `defaultdict` read sees
`0`) and, when cache tracking is on and the request looked cached, the sticky
route is upserted.  On failure the counter is incremented and, only when
cache tracking is on, a matching sticky entry is deleted. -/
def record_request_result (s : LBState) (now : Int) (channel_id : Nat)
    (model : String) (user_id : Nat) (success : Bool) (latency_ms : Int)
    (has_cache : Bool) : LBState :=
  if success then
    let s1 : LBState :=
      { s with consecutive_failures := fun k =>
          if k = channel_id then 0 else s.consecutive_failures k }
    if s.enable_cache_tracking && (has_cache || latency_ms < 50) then
      update_cache_routing s1 now user_id model channel_id true
    else s1
  else
    let s1 : LBState :=
      { s with consecutive_failures := fun k =>
          if k = channel_id then s.consecutive_failures channel_id + 1
          else s.consecutive_failures k }
    if s.enable_cache_tracking then
      match s1.cache_routing (user_id, model) with
      | some info =>
        if info.channel_id = channel_id then
          { s1 with cache_routing := fun k =>
              if k = (user_id, model) then none else s1.cache_routing k }
        else s1
      | none => s1
    else s1

/-- analyze_channel_performance embeds
`LoadBalancerService.analyze_channel_performance`: filter the request-log
rows of the (channel, model) pair inside the window, then compute totals,
the success rate, nearest-rank percentiles over the sorted successful
latencies and the `< 50 ms` cache-hit rate.  `int(len * 0.95)` is embedded
as the exact `95 * len / 100` (the float product never crosses an integer
boundary for representable list lengths). -/
def analyze_channel_performance (logs : List RequestLogRec) (channel_id : Nat)
    (model : String) (now : Int) (window_minutes : Int) :
    ChannelPerformanceMetrics :=
  let since := now - window_minutes * 60
  let sel := logs.filter (fun l =>
    l.channel_id == channel_id && l.model == model && since ≤ l.created_at)
  if sel.isEmpty then
    { channel_id := channel_id, model := model, avg_latency_ms := 0,
      p50_latency_ms := 0, p95_latency_ms := 0, p99_latency_ms := 0,
      success_rate := 1, total_requests := 0, error_count := 0,
      cached_requests := 0, cache_hit_rate := 0, calculated_at := now }
  else
    let success_logs := sel.filter (fun l => l.status == "success")
    let error_logs := sel.filter (fun l => l.status == "error")
    let total_requests := sel.length
    let success_rate : ℚ :=
      if total_requests > 0 then (success_logs.length : ℚ) / (total_requests : ℚ)
      else 1
    let latencies := success_logs.filterMap (fun l => l.latency_ms)
    let latencies_sorted := List.insertionSort (fun a b : Int => a ≤ b) latencies
    let n := latencies_sorted.length
    let avg_latency : ℚ :=
      if latencies.isEmpty then 0 else (latencies.sum : ℚ) / (latencies.length : ℚ)
    let p50 : ℚ :=
      if latencies.isEmpty then 0 else ((latencies_sorted.getD (n / 2) 0 : Int) : ℚ)
    let p95 : ℚ :=
      if latencies.isEmpty then 0
      else ((latencies_sorted.getD (min (95 * n / 100) (n - 1)) 0 : Int) : ℚ)
    let p99 : ℚ :=
      if latencies.isEmpty then 0
      else ((latencies_sorted.getD (min (99 * n / 100) (n - 1)) 0 : Int) : ℚ)
    let cached_requests := (latencies.filter (fun lat => lat < 50)).length
    let cache_hit_rate : ℚ :=
      if ¬ latencies.isEmpty then (cached_requests : ℚ) / (latencies.length : ℚ)
      else 0
    { channel_id := channel_id, model := model, avg_latency_ms := avg_latency,
      p50_latency_ms := p50, p95_latency_ms := p95, p99_latency_ms := p99,
      success_rate := success_rate, total_requests := total_requests,
      error_count := error_logs.length, cached_requests := cached_requests,
      cache_hit_rate := cache_hit_rate, calculated_at := now }

/-- get_channel_performance embeds
`LoadBalancerService.get_channel_performance` with `use_cache=True`: serve a
cached entry younger than 5 minutes, else recompute from the log.  (The
source also stores the recomputed value back into the cache; the write does
not change the value returned to the caller.) -/
def get_channel_performance (s : LBState) (now : Int) (logs : List RequestLogRec)
    (channel_id : Nat) (model : String) : ChannelPerformanceMetrics :=
  match s.performance_metrics (channel_id, model) with
  | some cached =>
    if now - cached.calculated_at < 5 * 60 then cached
    else analyze_channel_performance logs channel_id model now s.metrics_window_minutes
  | none => analyze_channel_performance logs channel_id model now s.metrics_window_minutes

/-- ChannelCostInfo embeds the dataclass of the same name. -/
structure ChannelCostInfo where
  channel_id : Nat
  model : String
  input_cost_per_1k : ℚ
  output_cost_per_1k : ℚ

/-- average_cost_per_request embeds the property of the same name. -/
def ChannelCostInfo.average_cost_per_request (c : ChannelCostInfo) : ℚ :=
  (c.input_cost_per_1k + c.output_cost_per_1k) / 2

/-- get_channel_cost_info embeds `LoadBalancerService.get_channel_cost_info`:
model-specific costs, then channel default costs, then the per-provider-type
defaults table. -/
def get_channel_cost_info (c : Channel) (model : String) : ChannelCostInfo :=
  match c.model_costs.lookup model with
  | some cc =>
    ⟨c.id, model, cc.input.getD (1/100), cc.output.getD (3/100)⟩
  | none =>
    match c.default_costs with
    | some dc => ⟨c.id, model, dc.input.getD (1/100), dc.output.getD (3/100)⟩
    | none =>
      if c.type == "openai" then ⟨c.id, model, 1/100, 3/100⟩
      else if c.type == "azure" then ⟨c.id, model, 1/100, 3/100⟩
      else if c.type == "anthropic" then ⟨c.id, model, 8/1000, 24/1000⟩
      else if c.type == "gemini" then ⟨c.id, model, 5/10000, 15/10000⟩
      else ⟨c.id, model, 1/100, 3/100⟩

/-- pyChoice embeds `random.choice(l)`: the draw is an arbitrary natural,
reduced modulo the list length so that every index is reachable. -/
def pyChoice {α : Type} (l : List α) (i : Nat) : Option α :=
  l.get? (i % l.length)

/-- strategy_random embeds `LoadBalancerService._strategy_random`. -/
def strategy_random (s : LBState) (now : Int) (channels : List ChanMap)
    (i : Nat) : Option ChanMap :=
  if channels.isEmpty then none
  else pyChoice (filter_healthy_channels s now channels) i

/-- weightedPick embeds the accumulation loop of
`_strategy_weighted_random`: walk the pool in order, add each weight to the
integer cumulative sum, and return the first row whose cumulative sum has
reached the draw `r`. -/
def weightedPick : List ChanMap → ℚ → Int → Option ChanMap
  | [], _, _ => none
  | cm :: rest, r, cum =>
    let cum2 := cum + cm.1.weight
    if r ≤ (cum2 : ℚ) then some cm else weightedPick rest r cum2

/-- strategy_weighted_random embeds
`LoadBalancerService._strategy_weighted_random`; `r` is the value of
`random.uniform(0, total_weight)`, and the trailing
`return healthy_channels[0]` of the source is the `none` branch of the
loop. -/
def strategy_weighted_random (s : LBState) (now : Int) (channels : List ChanMap)
    (r : ℚ) : Option ChanMap :=
  if channels.isEmpty then none
  else
    let healthy := filter_healthy_channels s now channels
    match weightedPick healthy r 0 with
    | some cm => some cm
    | none => healthy.head?

/-- cost_score embeds the per-channel score of `_strategy_lowest_cost`:
average cost per request divided by the success rate clamped below at
`0.1`. -/
def cost_score (s : LBState) (now : Int) (logs : List RequestLogRec)
    (c : Channel) (model : String) : ℚ :=
  let cost_info := get_channel_cost_info c model
  let metrics := get_channel_performance s now logs c.id model
  let success_rate := if metrics.total_requests > 0 then metrics.success_rate else 1
  cost_info.average_cost_per_request / max success_rate (1/10)

/-- strategy_lowest_cost embeds `LoadBalancerService._strategy_lowest_cost`.
The scored rows are sorted ascending (stable, like Python's `list.sort`),
the cohort of rows within `0.001` of the minimum is collected, truncated to
3 when larger, and one member is drawn at random.  (The source's
`if not channel_costs: return None` corresponds to the empty-sort branch:
both fire exactly when the healthy pool is empty.) -/
def strategy_lowest_cost (s : LBState) (now : Int) (channels : List ChanMap)
    (model : String) (logs : List RequestLogRec) (i : Nat) : Option ChanMap :=
  if channels.isEmpty then none
  else
    let healthy := filter_healthy_channels s now channels
    let channel_costs := healthy.map (fun cm => (cm, cost_score s now logs cm.1 model))
    match List.insertionSort (fun a b : ChanMap × ℚ => a.2 ≤ b.2) channel_costs with
    | [] => none
    | c0 :: rest =>
      let lowest_cost := c0.2
      let candidates :=
        ((c0 :: rest).filter (fun x => |x.2 - lowest_cost| < 1/1000)).map
          (fun x => x.1)
      let candidates := if candidates.length > 3 then candidates.take 3 else candidates
      pyChoice candidates i

/-- performance_score embeds the per-channel score of
`_strategy_best_performance`: `0.7 * success_rate + 0.3 * latency_score`
when history exists, `0.5` otherwise. -/
def performance_score (s : LBState) (now : Int) (logs : List RequestLogRec)
    (channel_id : Nat) (model : String) : ℚ :=
  let metrics := get_channel_performance s now logs channel_id model
  if metrics.total_requests > 0 then
    let latency_score := max 0 (1 - metrics.p95_latency_ms / 10000)
    (7/10) * metrics.success_rate + (3/10) * latency_score
  else 1/2

/-- strategy_best_performance embeds
`LoadBalancerService._strategy_best_performance`: sort the scored rows
descending (stable) and draw one of the top `min 3 len` rows at random. -/
def strategy_best_performance (s : LBState) (now : Int) (channels : List ChanMap)
    (model : String) (logs : List RequestLogRec) (i : Nat) : Option ChanMap :=
  if channels.isEmpty then none
  else
    let healthy := filter_healthy_channels s now channels
    let channel_scores :=
      healthy.map (fun cm => (cm, performance_score s now logs cm.1.id model))
    let sorted := List.insertionSort (fun a b : ChanMap × ℚ => b.2 ≤ a.2) channel_scores
    let candidates := (sorted.take (min 3 sorted.length)).map (fun x => x.1)
    pyChoice candidates i

/-- queryChannels embeds the database query of `select_optimal_channel`: the
join of active channels with the mappings of the requested public model. -/
def queryChannels (chans : List Channel) (maps : List ModelMapping)
    (model : String) : List ChanMap :=
  chans.flatMap (fun c =>
    if c.status == "active" then
      (maps.filter (fun m => m.channel_id == c.id && m.model_id == model)).map
        (fun m => (c, m))
    else [])

/-- sticky_route_choice embeds the cache-routing block of
`select_optimal_channel`: when a valid preference exists, the loop over
`channels` finds the first row of the preferred channel and returns it only
if it is currently judged healthy; an unhealthy match `break`s out and a
missing match falls through, both yielding `none` (strategy selection
follows). -/
def sticky_route_choice (s : LBState) (now : Int) (user_id : Nat)
    (model : String) (channels : List ChanMap) : Option ChanMap :=
  match get_cache_routing_preference s now user_id model with
  | some cache_info =>
    if cache_info.has_cache_enabled then
      match channels.find? (fun cm => cm.1.id == cache_info.channel_id) with
      | some cm =>
        if is_channel_healthy s now cm.1.id then some cm else none
      | none => none
    else none
  | none => none

/-- dispatch_strategy embeds the `if strategy == ... / elif ...` chain at
the end of `select_optimal_channel` (the trailing `else` of the source is
unreachable: the enum cases are exhaustive). -/
def dispatch_strategy (s : LBState) (now : Int) (channels : List ChanMap)
    (model : String) (logs : List RequestLogRec)
    (strat : LoadBalanceStrategy) (r : ℚ) (i : Nat) : Option ChanMap :=
  match strat with
  | .random => strategy_random s now channels i
  | .weighted_random => strategy_weighted_random s now channels r
  | .lowest_cost => strategy_lowest_cost s now channels model logs i
  | .best_performance => strategy_best_performance s now channels model logs i

/-- select_optimal_channel embeds
`LoadBalancerService.select_optimal_channel`: resolve the strategy and the
cache preference, query the supporting active channels, try the sticky
route, then dispatch on the strategy. -/
def select_optimal_channel (s : LBState) (now : Int) (model : String)
    (user_id : Nat) (chans : List Channel) (maps : List ModelMapping)
    (logs : List RequestLogRec) (strategyOpt : Option LoadBalanceStrategy)
    (prefer_cacheOpt : Option Bool) (r : ℚ) (i : Nat) : Option ChanMap :=
  let strategy := strategyOpt.getD s.default_strategy
  let prefer_cache := prefer_cacheOpt.getD s.enable_cache_tracking
  let channels := queryChannels chans maps model
  if channels.isEmpty then none
  else
    let sticky : Option ChanMap :=
      if prefer_cache && s.enable_cache_tracking then
        sticky_route_choice s now user_id model channels
      else none
    match sticky with
    | some cm => some cm
    | none => dispatch_strategy s now channels model logs strategy r i

/-- mask_api_key embeds `app/core/security.py::mask_api_key` on the
character sequence of the key (Python `str` slicing becomes `List Char`
operations; `'*' * n` with negative `n` is the empty string, matching `Nat`
truncated subtraction). -/
def mask_api_key (api_key : List Char) : List Char :=
  if api_key.length ≤ 12 then List.replicate api_key.length '*'
  else
    api_key.take 12 ++ List.replicate (api_key.length - 16) '*' ++
      api_key.drop (api_key.length - 4)

/-- Modelled from the spec: `hash_api_key` delegates to passlib's bcrypt
`CryptContext.hash`, a library routine outside `src/` (the spec says keys
are "stored only as a password-hash").  A bcrypt modular-crypt hash is a
60-character string whose scheme identifier starts with `$2`; the predicate
captures exactly that output format, keeping the hash value itself
abstract. -/
def is_bcrypt_hash (h : List Char) : Bool :=
  h.take 2 == ['$', '2'] && h.length == 60

/-- has_claimed_mask_form states the form C9 claims for a masked hash:
the literal `sk-llmweaver-`, then only asterisks, then the last 4
characters of the hash. -/
def has_claimed_mask_form (m h : List Char) : Bool :=
  m.take 13 == "sk-llmweaver-".data &&
  (m.drop 13).dropLast.dropLast.dropLast.dropLast.all (fun c => c == '*') &&
  m.drop (m.length - 4) == h.drop (h.length - 4)

/-- BusinessErrorKind enumerates the exception classes of
`app/core/exceptions.py`. -/
inductive BusinessErrorKind where
  | authenticationError
  | authorizationError
  | notFoundError
  | rateLimitError
  | upstreamError
  | validationError
  | insufficientBalanceError
deriving DecidableEq

/-- statusCodeOf gives the `status_code` each exception class of
`app/core/exceptions.py` is constructed with, which is the HTTP status the
`BusinessError` handler in `app/main.py` responds with. -/
def statusCodeOf : BusinessErrorKind → Nat
  | .authenticationError => 401
  | .authorizationError => 403
  | .notFoundError => 404
  | .rateLimitError => 429
  | .upstreamError => 502
  | .validationError => 400
  | .insufficientBalanceError => 402

/-- ChatMessage embeds the pydantic model of the same name. -/
structure ChatMessage where
  role : String
  content : String
deriving DecidableEq

/-- ChatCompletionRequest embeds the pydantic model of the same name
(fields the routing pipeline reads). -/
structure ChatCompletionRequest where
  model : String
  messages : List ChatMessage
  temperature : ℚ
  max_tokens : Option Int
  stream : Bool
  top_p : ℚ
deriving DecidableEq

/-- ApiKeyRec embeds `app/db/models/api_key.py` restricted to the fields
`chat_completions` reads.  `allowed_models = none` is SQL `NULL`; Python
truthiness makes `none` and `some []` behave alike. -/
structure ApiKeyRec where
  id : Nat
  user_id : Nat
  allowed_models : Option (List String)
  budget_limit : ℚ
  budget_used : ℚ

/-- count_tokens embeds `openai_compat.py::count_tokens`:
`len(text) // 3 + 1`. -/
def count_tokens (text : String) : Int :=
  ((text.length / 3 : Nat) : Int) + 1

/-- chat_input_tokens embeds lines 354-355 of `chat_completions`: the
heuristic token count of the newline-joined message contents. -/
def chat_input_tokens (req : ChatCompletionRequest) : Int :=
  count_tokens (String.intercalate "\n" (req.messages.map (fun m => m.content)))

/-- calculate_cost embeds `openai_compat.py::calculate_cost` (the second,
shadowing pricing dict), with `round(x, 6)` embedded as rounding the exact
rational to 6 decimal places.  (Python rounds the nearest float half to
even; no cost value in this development sits on a half-way tie.) -/
def calculate_cost (model : String) (input_tokens output_tokens : Int) : ℚ :=
  let pricing : ℚ × ℚ :=
    if model == "gpt-4" then (3/100, 6/100)
    else if model == "gpt-4-turbo" then (1/100, 3/100)
    else if model == "gpt-3.5-turbo" then (5/10000, 15/10000)
    else if model == "gpt-3.5-turbo-16k" then (1/1000, 2/1000)
    else if model == "claude-3-opus" then (15/1000, 75/1000)
    else if model == "claude-3-sonnet" then (3/1000, 15/1000)
    else if model == "claude-3-haiku" then (25/100000, 125/100000)
    else if model == "claude-3-opus-20240229" then (15/1000, 75/1000)
    else if model == "claude-3-sonnet-20240229" then (3/1000, 15/1000)
    else if model == "claude-3-haiku-20240307" then (25/100000, 125/100000)
    else if model == "gemini-pro" then (5/10000, 15/10000)
    else if model == "gemini-pro-vision" then (5/10000, 15/10000)
    else if model == "gemini-ultra" then (1/1000, 3/1000)
    else (5/10000, 15/10000)
  let input_cost := ((input_tokens : ℚ) / 1000) * pricing.1
  let output_cost := ((output_tokens : ℚ) / 1000) * pricing.2
  (round ((input_cost + output_cost) * 1000000) : ℚ) / 1000000

/-- lowerAscii embeds Python's `str.lower` for the ASCII strategy names the
`X-LB-Strategy` header can carry. -/
def lowerAscii (s : String) : String :=
  String.mk (s.data.map (fun c =>
    if 'A' ≤ c ∧ c ≤ 'Z' then Char.ofNat (c.toNat + 32) else c))

/-- parse_strategy embeds the strategy-parsing prelude of
`select_channel_for_model`: a falsy (absent or empty) header is skipped, an
unknown value logs a warning and falls back to `None` (the default
strategy). -/
def parse_strategy (x : Option String) : Option LoadBalanceStrategy :=
  match x with
  | none => none
  | some sv =>
    if sv == "" then none
    else if lowerAscii sv == "random" then some .random
    else if lowerAscii sv == "weighted" then some .weighted_random
    else if lowerAscii sv == "lowest_cost" then some .lowest_cost
    else if lowerAscii sv == "performance" then some .best_performance
    else none

/-- RouteDecision is the observable outcome of the pre-upstream phase of
`chat_completions`: a raised `BusinessError`, the `TypeError` raised by
`channel, mapping = None` (handled by the generic handler of `app/main.py`
as HTTP 500), or the selected channel row handed to the up-stream call. -/
inductive RouteDecision where
  | reject (e : BusinessErrorKind)
  | unhandledTypeError
  | proceed (cm : ChanMap)
deriving DecidableEq

/-- routeHttpStatus maps a pre-upstream outcome to the HTTP status the
client observes (`BusinessError` handler, resp. generic `Exception`
handler, of `app/main.py`); `none` means the request went on upstream. -/
def routeHttpStatus : RouteDecision → Option Nat
  | .reject e => some (statusCodeOf e)
  | .unhandledTypeError => some 500
  | .proceed _ => none

/-- allowed_models_rejects embeds the guard
`if api_key.allowed_models and request.model not in api_key.allowed_models`. -/
def allowed_models_rejects (key : ApiKeyRec) (model : String) : Bool :=
  match key.allowed_models with
  | some l => !l.isEmpty && !(l.contains model)
  | none => false

/-- budget_rejects embeds the guard
`if api_key.budget_limit and api_key.budget_limit > 0` followed by
`float(budget_used) >= float(budget_limit)`. -/
def budget_rejects (key : ApiKeyRec) : Bool :=
  (key.budget_limit != 0 && key.budget_limit > 0) && key.budget_used ≥ key.budget_limit

/-- chat_completions embeds the pre-upstream phase of
`openai_compat.py::chat_completions`: the allow-list check, the budget
check, then channel selection.  When `select_optimal_channel` returns
`None`, the source's tuple unpacking `channel, mapping = ...` raises
`TypeError` before the `if not channel` guard can run, so the `None` case
maps to `unhandledTypeError`, and in the `some` case the guard can never
fire. -/
def chat_completions (key : ApiKeyRec) (req : ChatCompletionRequest)
    (x_lb_strategy : Option String) (s : LBState) (now : Int)
    (chans : List Channel) (maps : List ModelMapping) (logs : List RequestLogRec)
    (r : ℚ) (i : Nat) : RouteDecision :=
  if allowed_models_rejects key req.model then .reject .validationError
  else if budget_rejects key then .reject .rateLimitError
  else
    match select_optimal_channel s now req.model key.user_id chans maps logs
        (parse_strategy x_lb_strategy) none r i with
    | none => .unhandledTypeError
    | some cm => .proceed cm

/-- UsageRec is the `usage` object of the OpenAI-shaped upstream data that
the common response tail of `non_stream_chat_completion` reads
(`completion_tokens` and `total_tokens`; a `prompt_tokens` key may be
present but is never read by the tail). -/
structure UsageRec where
  prompt_tokens : Int
  completion_tokens : Int
  total_tokens : Int
deriving DecidableEq

/-- UnaryOutcome abstracts what the upstream interaction of
`non_stream_chat_completion` produced once the provider branch has run:
a normalized success (content, finish reason, optional usage), an
`httpx.HTTPStatusError`, or any other exception raised inside the `try`
block. -/
inductive UnaryOutcome where
  | success (content : String) (finish_reason : Option String) (usage : Option UsageRec)
  | httpError (status : Nat) (msg : String)
  | exnError (msg : String)
deriving DecidableEq

/-- LBEvent records one observable side effect of the completion
executors: a `log_request` append, a `budget_used` increment, or a
`load_balancer.record_request_result` call. -/
inductive LBEvent where
  | logRequest (status : String) (tokens_input tokens_output : Int) (cost : ℚ)
  | budgetAdd (cost : ℚ)
  | lbRecord (channel_id : Nat) (model : String) (user_id : Nat)
      (success : Bool) (latency_ms : Int) (has_cache : Bool)

/-- isLbRecord tests whether an event is a `record_request_result` call. -/
def LBEvent.isLbRecord : LBEvent → Bool
  | .lbRecord _ _ _ _ _ _ => true
  | _ => false

/-- Usage is the client-visible `usage` of `ChatCompletionResponse`. -/
structure Usage where
  prompt_tokens : Int
  completion_tokens : Int
  total_tokens : Int
deriving DecidableEq

/-- ChatChoiceRec is one entry of the client-visible `choices`. -/
structure ChatChoiceRec where
  message : ChatMessage
  finish_reason : Option String
deriving DecidableEq

/-- ChatCompletionResponseRec is the client-visible response body of the
non-streaming path (fields the claims inspect). -/
structure ChatCompletionResponseRec where
  model : String
  choices : List ChatChoiceRec
  usage : Usage
deriving DecidableEq

/-- requestLogColumns lists the mapped attribute names of `RequestLog`
(`app/db/models/request_log.py` together with the `BaseModelMixin`
columns); the SQLAlchemy declarative constructor accepts exactly these as
keyword arguments. -/
def requestLogColumns : List String :=
  ["id", "created_at", "updated_at",
   "request_id", "user_id", "api_key_id", "channel_id",
   "model", "mapped_model",
   "request_method", "request_path", "request_headers", "request_body",
   "response_status", "response_body",
   "prompt_tokens", "completion_tokens", "total_tokens", "cost",
   "latency_ms", "status", "error_message", "client_ip"]

/-- logRequestKwargs lists the keyword arguments
`openai_compat.py::log_request` passes to the `RequestLog` constructor. -/
def logRequestKwargs : List String :=
  ["request_id", "api_key_id", "user_id", "channel_id", "model", "status",
   "tokens_input", "tokens_output", "cost", "latency_ms", "error_message"]

/-- log_request_raises embeds the SQLAlchemy declarative constructor check:
`RequestLog(**kwargs)` raises `TypeError` iff some keyword is not a mapped
attribute.  `log_request` passes `tokens_input` and `tokens_output`, which
`RequestLog` does not declare (its token columns are `prompt_tokens` and
`completion_tokens`), so in this program every `log_request` call raises
before `db.add`. -/
def log_request_raises : Bool :=
  !(logRequestKwargs.all (fun k => requestLogColumns.contains k))

/-- CompletionFailure is the failure a completion executor terminates
with: a raised `BusinessError` (handled by the `BusinessError` handler of
`app/main.py`), or an exception no handler in the function catches, which
the generic handler surfaces as HTTP 500. -/
inductive CompletionFailure where
  | business (e : BusinessErrorKind)
  | unhandledTypeError
deriving DecidableEq

/-- completionHttpStatus is the HTTP status a completion failure is
surfaced with by the handlers of `app/main.py`. -/
def completionHttpStatus : CompletionFailure → Nat
  | .business e => statusCodeOf e
  | .unhandledTypeError => 500

/-- non_stream_chat_completion embeds the tail of
`openai_compat.py::non_stream_chat_completion` after the provider branch,
including the fate of each `log_request` call.  `append_raises` says
whether the `RequestLog` constructor inside `log_request` raises on the
passed keywords; the program's value is `log_request_raises` (true).  When
the append raises: on the success branch the `TypeError` is caught by
`except Exception`, whose own `log_request` raises again and propagates,
so the budget update, the `record_request_result` call and the response
construction are never reached; in the two exception branches the
handler's `log_request` raises before `record_request_result`, and an
exception raised inside an `except` clause is not caught by its sibling
clauses, so it propagates too — HTTP 500 in all three cases, no events.
The `else` branches spell out the source lines that run only if the
append succeeds (log, budget on success, record on every outcome). -/
def non_stream_chat_completion (append_raises : Bool) (channel_id user_id : Nat)
    (model : String) (input_tokens latency_ms : Int) (o : UnaryOutcome) :
    Option ChatCompletionResponseRec × Option CompletionFailure × List LBEvent :=
  match o with
  | .success content finish_reason usage =>
    let output_tokens := match usage with
      | some u => u.completion_tokens
      | none => count_tokens content
    let total_tokens := match usage with
      | some u => u.total_tokens
      | none => input_tokens + output_tokens
    let cost := calculate_cost model input_tokens output_tokens
    let has_cache := latency_ms < 50
    if append_raises then
      (none, some .unhandledTypeError, [])
    else
      (some { model := model,
              choices := [{ message := { role := "assistant", content := content },
                            finish_reason := finish_reason }],
              usage := { prompt_tokens := input_tokens,
                         completion_tokens := output_tokens,
                         total_tokens := total_tokens } },
       none,
       [LBEvent.logRequest "success" input_tokens output_tokens cost,
        LBEvent.budgetAdd cost,
        LBEvent.lbRecord channel_id model user_id true latency_ms has_cache])
  | .httpError _ _ =>
    if append_raises then
      (none, some .unhandledTypeError, [])
    else
      (none, some (.business .upstreamError),
       [LBEvent.logRequest "error" input_tokens 0 0,
        LBEvent.lbRecord channel_id model user_id false latency_ms false])
  | .exnError _ =>
    if append_raises then
      (none, some .unhandledTypeError, [])
    else
      (none, some (.business .upstreamError),
       [LBEvent.logRequest "error" input_tokens 0 0,
        LBEvent.lbRecord channel_id model user_id false latency_ms false])

/-- StreamChunkRec is one parsed upstream SSE chunk (the delta content the
stream loop accumulates; empty content stands for a chunk whose `delta` has
no truthy `content`). -/
structure StreamChunkRec where
  delta_content : String
deriving DecidableEq

/-- SSEItem is one frame the streaming generator yields to the client. -/
inductive SSEItem where
  | chunk (c : StreamChunkRec)
  | errorItem (msg : String)
  | done
deriving DecidableEq

/-- stream_output_tokens embeds the accumulation loop of
`stream_chat_completion`: chunks with truthy content contribute
`count_tokens` of their content. -/
def stream_output_tokens (chunks : List StreamChunkRec) : Int :=
  (chunks.map (fun c => if c.delta_content == "" then 0
                        else count_tokens c.delta_content)).sum

/-- stream_chat_completion embeds
`openai_compat.py::stream_chat_completion` as a function of the consumed
upstream chunks and an optional exception that interrupted the stream: the
yielded frames and the side-effect events.  `append_raises` says whether
the `RequestLog` constructor inside `log_request` raises; the program's
value is `log_request_raises` (true).  When the append raises: on the
success path the chunks and `[DONE]` have already been yielded, then
`log_request` raises, the `except` block yields one error frame (the
`TypeError` message) and a second `[DONE]`, and its own `log_request`
raises again and escapes the generator — no outcome appended, no budget
update; on an upstream error the handler yields the error frame and
`[DONE]` before its `log_request` raises and escapes.  The `else`
branches spell out the source lines that run only if the append succeeds;
no branch of the function contains a `record_request_result` call. -/
def stream_chat_completion (append_raises : Bool) (channel_id user_id : Nat)
    (model : String) (input_tokens latency_ms : Int)
    (chunks : List StreamChunkRec) (stream_error : Option String) :
    List SSEItem × List LBEvent :=
  let output_tokens := stream_output_tokens chunks
  match stream_error with
  | none =>
    let cost := calculate_cost model input_tokens output_tokens
    if append_raises then
      (chunks.map SSEItem.chunk ++
        [SSEItem.done,
         SSEItem.errorItem
           "TypeError: tokens_input is an invalid keyword argument for RequestLog",
         SSEItem.done],
       [])
    else
      (chunks.map SSEItem.chunk ++ [SSEItem.done],
       [LBEvent.logRequest "success" input_tokens output_tokens cost,
        LBEvent.budgetAdd cost])
  | some msg =>
    if append_raises then
      (chunks.map SSEItem.chunk ++ [SSEItem.errorItem msg, SSEItem.done], [])
    else
      (chunks.map SSEItem.chunk ++ [SSEItem.errorItem msg, SSEItem.done],
       [LBEvent.logRequest "error" input_tokens output_tokens 0])

/-- AnthropicUsage is the `usage` object of an Anthropic `/v1/messages`
response. -/
structure AnthropicUsage where
  input_tokens : Int
  output_tokens : Int
deriving DecidableEq

/-- AnthropicContentBlock is one entry of the Anthropic response
`content` array. -/
structure AnthropicContentBlock where
  text : String
deriving DecidableEq

/-- AnthropicResponseRec is an Anthropic `/v1/messages` response body
(fields the adapter reads). -/
structure AnthropicResponseRec where
  content : List AnthropicContentBlock
  stop_reason : String
  usage : AnthropicUsage
deriving DecidableEq

/-- AnthropicRequestRec is the upstream body the Anthropic branch of
`non_stream_chat_completion` sends. -/
structure AnthropicRequestRec where
  model : String
  messages : List ChatMessage
  max_tokens : Int
  temperature : ℚ
  top_p : ℚ
  system : Option String
deriving DecidableEq

/-- anthropic_split embeds the message loop of the Anthropic branch: each
`role == "system"` message is dropped from the outgoing list and its
content overwrites `system_content` (so the last one wins). -/
def anthropic_split (ms : List ChatMessage) : List ChatMessage × Option String :=
  ms.foldl
    (fun acc m =>
      if m.role == "system" then (acc.1, some m.content)
      else (acc.1 ++ [m], acc.2))
    ([], none)

/-- pyOrInt embeds Python's `x or d` on an optional integer (`None` and
`0` are both falsy). -/
def pyOrInt (x : Option Int) (d : Int) : Int :=
  match x with
  | some v => if v = 0 then d else v
  | none => d

/-- anthropic_build_request embeds the construction of `anthropic_request`:
non-system messages, `max_tokens = request.max_tokens or 4096`, and the
`system` field set only when `system_content` is truthy (a last system
message with empty content leaves the field out). -/
def anthropic_build_request (req : ChatCompletionRequest)
    (upstream_model : String) : AnthropicRequestRec :=
  let pair := anthropic_split req.messages
  { model := upstream_model,
    messages := pair.1,
    max_tokens := pyOrInt req.max_tokens 4096,
    temperature := req.temperature,
    top_p := req.top_p,
    system := match pair.2 with
      | some sc => if sc == "" then none else some sc
      | none => none }

/-- map_stop_reason embeds the `stop_reason` translation of the Anthropic
branch: `max_tokens` to `length`, `stop_sequence` to `stop`, anything else
passes through. -/
def map_stop_reason (sr : String) : String :=
  if sr == "max_tokens" then "length"
  else if sr == "stop_sequence" then "stop"
  else sr

/-- anthropic_unary_outcome embeds the response conversion of the Anthropic
branch into the OpenAI-shaped `upstream_data` the common tail consumes:
`content[0].text` (an empty `content` raises `IndexError`, an exception),
the mapped `stop_reason`, and a usage whose `completion_tokens` is the
upstream `output_tokens` and whose `total_tokens` is the upstream
`input_tokens + output_tokens`. -/
def anthropic_unary_outcome (resp : AnthropicResponseRec) : UnaryOutcome :=
  match resp.content.head? with
  | none => .exnError "list index out of range"
  | some blk =>
    .success blk.text (some (map_stop_reason resp.stop_reason))
      (some { prompt_tokens := resp.usage.input_tokens,
              completion_tokens := resp.usage.output_tokens,
              total_tokens := resp.usage.input_tokens + resp.usage.output_tokens })

/-! Spec-side definitions: these phrase the properties the claims assert,
independently of the embedded code they are compared with. -/

/-- recent_probe is the spec's "most recent probe result within the last
5 minutes": the stored status of the channel, if it is younger than 5
minutes. -/
def recent_probe (s : LBState) (now : Int) (channel_id : Nat) :
    Option ChannelHealthStatus :=
  match s.health_status channel_id with
  | some st => if now - st.last_check_time < 5 * 60 then some st else none
  | none => none

/-- total_weight is the sum of the channel weights of a pool. -/
def total_weight (l : List ChanMap) : Int :=
  (l.map (fun cm => cm.1.weight)).sum

/-- cum_weight is the cumulative weight of the first `n` rows of a pool. -/
def cum_weight (l : List ChanMap) (n : Nat) : Int :=
  ((l.take n).map (fun cm => cm.1.weight)).sum

/-- first_index_cum_ge is the spec's "first element whose cumulative sum is
at least r", as an index into the pool. -/
def first_index_cum_ge (l : List ChanMap) (r : ℚ) : Option Nat :=
  (List.range l.length).find? (fun k => decide (r ≤ ((cum_weight l (k + 1) : Int) : ℚ)))

/-- window_outcomes is the spec's set of request outcomes of a
(channel, model) pair recorded since a cutoff. -/
def window_outcomes (logs : List RequestLogRec) (channel_id : Nat)
    (model : String) (since : Int) : List RequestLogRec :=
  logs.filter (fun l =>
    decide (l.channel_id = channel_id ∧ l.model = model ∧ since ≤ l.created_at))

/-- success_latencies is the spec's list of latencies of successful
outcomes in the window (in log order, missing latency values skipped). -/
def success_latencies (logs : List RequestLogRec) (channel_id : Nat)
    (model : String) (since : Int) : List Int :=
  ((window_outcomes logs channel_id model since).filter
      (fun l => l.status == "success")).filterMap (fun l => l.latency_ms)

/-! Helper lemmas. -/

lemma pyChoice_spec {α : Type} (l : List α) (i : Nat) (h : l ≠ []) :
    ∃ x, pyChoice l i = some x ∧ x ∈ l := by
  have hlen : 0 < l.length := List.length_pos.mpr h
  have hidx : i % l.length < l.length := Nat.mod_lt _ hlen
  refine ⟨l.get ⟨i % l.length, hidx⟩, ?_, List.get_mem _ _ _⟩
  simpa [pyChoice] using List.get?_eq_get hidx

lemma filter_healthy_mem {s : LBState} {now : Int} {l : List ChanMap} {cm : ChanMap}
    (hx : cm ∈ filter_healthy_channels s now l) : cm ∈ l := by
  unfold filter_healthy_channels at hx
  by_cases he : (l.filter (fun cm => is_channel_healthy s now cm.1.id)).isEmpty
  · simpa [he] using hx
  · simp only [he, if_neg, Bool.false_eq_true, if_false] at hx
    exact List.mem_of_mem_filter hx

lemma filter_healthy_ne_nil {s : LBState} {now : Int} {l : List ChanMap}
    (h : l ≠ []) : filter_healthy_channels s now l ≠ [] := by
  unfold filter_healthy_channels
  by_cases he : (l.filter (fun cm => is_channel_healthy s now cm.1.id)).isEmpty
  · simpa [he] using h
  · simp only [he, Bool.false_eq_true, if_false]
    intro hc
    exact he (by simp [hc])

lemma filter_healthy_all_healthy {s : LBState} {now : Int} {l : List ChanMap}
    {cm : ChanMap}
    (hex : ∃ d ∈ l, is_channel_healthy s now d.1.id = true)
    (hx : cm ∈ filter_healthy_channels s now l) :
    is_channel_healthy s now cm.1.id = true := by
  obtain ⟨d, hd, hdh⟩ := hex
  have hne : ¬ (l.filter (fun cm => is_channel_healthy s now cm.1.id)).isEmpty := by
    simp only [List.isEmpty_iff]
    intro hc
    have : d ∈ l.filter (fun cm => is_channel_healthy s now cm.1.id) :=
      List.mem_filter.mpr ⟨hd, hdh⟩
    rw [hc] at this
    exact absurd this (List.not_mem_nil d)
  unfold filter_healthy_channels at hx
  simp only [hne, Bool.false_eq_true, if_false] at hx
  exact (List.mem_filter.mp hx).2

lemma weightedPick_mem {l : List ChanMap} {r : ℚ} {base : Int} {cm : ChanMap}
    (h : weightedPick l r base = some cm) : cm ∈ l := by
  induction l generalizing base with
  | nil => simp [weightedPick] at h
  | cons x rest ih =>
    simp only [weightedPick] at h
    by_cases hc : r ≤ ((base + x.1.weight : Int) : ℚ)
    · simp only [hc, if_pos] at h
      cases h
      exact List.mem_cons_self _ _
    · simp only [hc, if_neg, if_false] at h
      exact List.mem_cons_of_mem _ (ih h)

lemma head?_mem {α : Type} {l : List α} {x : α} (h : l.head? = some x) : x ∈ l := by
  cases l with
  | nil => simp at h
  | cons a t =>
    simp only [List.head?_cons, Option.some.injEq] at h
    exact h ▸ List.mem_cons_self _ _

/-! Claim C7: the fast-path health predicate. -/

/-- Claim C7: the fast-path health predicate holds iff the
consecutive-failure counter is strictly below the maximum and either no
probe result of the last 5 minutes exists or that probe reported healthy;
in particular a stale probe (older than 5 minutes) is disregarded entirely
when the counter is below the threshold. -/
theorem claim_C7_fast_path_health (s : LBState) (now : Int) (cid : Nat) :
    (is_channel_healthy s now cid = true ↔
      (s.consecutive_failures cid < s.max_consecutive_failures ∧
        (recent_probe s now cid = none ∨
          ∃ st, recent_probe s now cid = some st ∧ st.is_healthy = true)))
    ∧ (∀ st, s.health_status cid = some st →
        ¬ (now - st.last_check_time < 5 * 60) →
        s.consecutive_failures cid < s.max_consecutive_failures →
        is_channel_healthy s now cid = true) := by
  constructor
  · unfold is_channel_healthy recent_probe
    by_cases hf : s.consecutive_failures cid ≥ s.max_consecutive_failures
    · rw [if_pos hf]
      simp only [Bool.false_eq_true, false_iff]
      rintro ⟨h1, -⟩; omega
    · have hf' : s.consecutive_failures cid < s.max_consecutive_failures := by omega
      rw [if_neg hf]
      cases hh : s.health_status cid with
      | none =>
        simp [hh, hf']
      | some st =>
        simp only [hh]
        by_cases hr : now - st.last_check_time < 5 * 60
        · rw [if_pos hr, if_pos hr]
          constructor
          · intro hhl; exact ⟨hf', Or.inr ⟨st, rfl, hhl⟩⟩
          · rintro ⟨-, hnone | ⟨st1, heq, hh1⟩⟩
            · exact absurd hnone (by simp)
            · injection heq with heq'; exact heq' ▸ hh1
        · rw [if_neg hr, if_neg hr]
          exact ⟨fun _ => ⟨hf', Or.inl rfl⟩, fun _ => rfl⟩
  · intro st hst hstale hlt
    unfold is_channel_healthy
    rw [if_neg (Nat.not_le.mpr hlt)]
    simp only [hst]
    rw [if_neg hstale]

/-- Witness for C7: a channel whose only probe is stale (6 minutes old) and
reported unhealthy, with 2 consecutive failures out of 3 allowed, is judged
healthy. -/
theorem claim_C7_fast_path_health_witness :
    is_channel_healthy
      { health_status := fun _ => some ⟨1, false, 0, 2⟩,
        consecutive_failures := fun _ => 2,
        cache_routing := fun _ => none,
        performance_metrics := fun _ => none,
        metrics_window_minutes := 30,
        cache_routing_ttl_minutes := 5,
        max_consecutive_failures := 3,
        default_strategy := .weighted_random,
        enable_cache_tracking := true } 360 1 = true :=
  (claim_C7_fast_path_health _ 360 1).2 ⟨1, false, 0, 2⟩ rfl
    (by decide) (by decide)

/-! Claim C9: masking a hashed API key. -/

/-- bcryptDemoHash is a concrete 60-character modular-crypt-format value
standing for an output of `hash_api_key`. -/
def bcryptDemoHash : List Char :=
  "$2b$12$abcdefghijklmnopqrstuvwxyzABCDEFGHIJKLMNOPQRSTUVWXYZ.".data

/-- Counterexample to C9 as stated: masking a bcrypt hash does not produce
the `sk-llmweaver-` form, because `mask_api_key` copies the first 12
characters of its argument, and the argument is the hash (starting `$2`),
not the raw key. -/
theorem claim_C9_counterexample :
    is_bcrypt_hash bcryptDemoHash = true ∧
    has_claimed_mask_form (mask_api_key bcryptDemoHash) bcryptDemoHash = false := by
  decide

/-- Claim C9, amended: for a bcrypt-format hash `h` (60 characters starting
with `$2`), `mask_api_key h` is the first 12 characters of `h`, then 44
asterisks, then the last 4 characters of `h`; it therefore starts with the
hash's own `$2` scheme marker and never has the form the claim states
(`sk-llmweaver-`, asterisks, last 4 of the hash). -/
theorem claim_C9_mask_of_hash (h : List Char) (hb : is_bcrypt_hash h = true) :
    (mask_api_key h).take 12 = h.take 12 ∧
    (mask_api_key h).length = 60 ∧
    ((mask_api_key h).drop 12).take 44 = List.replicate 44 '*' ∧
    (mask_api_key h).drop 56 = h.drop 56 ∧
    has_claimed_mask_form (mask_api_key h) h = false := by
  have hb' : h.take 2 = ['$', '2'] ∧ h.length = 60 := by
    unfold is_bcrypt_hash at hb
    simp only [Bool.and_eq_true, beq_iff_eq] at hb
    exact hb
  obtain ⟨h2, hlen⟩ := hb'
  have hgt : ¬ h.length ≤ 12 := by omega
  have hmask : mask_api_key h =
      h.take 12 ++ List.replicate 44 '*' ++ h.drop 56 := by
    unfold mask_api_key
    rw [if_neg hgt, hlen]
  have htl : (h.take 12).length = 12 := by
    rw [List.length_take]; omega
  have c1 : (mask_api_key h).take 12 = h.take 12 := by
    rw [hmask, List.append_assoc, List.take_append_of_le_length (by omega),
      List.take_take]
    simp
  have c2 : (mask_api_key h).length = 60 := by
    rw [hmask]
    simp only [List.length_append, List.length_replicate, List.length_drop, htl]
    omega
  have hd12 : List.drop 12 (List.take 12 h ++ (List.replicate 44 '*' ++ List.drop 56 h))
      = List.replicate 44 '*' ++ List.drop 56 h := by
    have hdl := List.drop_left (List.take 12 h) (List.replicate 44 '*' ++ List.drop 56 h)
    rwa [htl] at hdl
  have c3 : ((mask_api_key h).drop 12).take 44 = List.replicate 44 '*' := by
    rw [hmask, List.append_assoc, hd12]
    have h44 := List.take_left (List.replicate 44 '*') (List.drop 56 h)
    simpa using h44
  have c4 : (mask_api_key h).drop 56 = h.drop 56 := by
    have hlen56 : (List.take 12 h ++ List.replicate 44 '*').length = 56 := by
      simp [htl]
    have hdl := List.drop_left (List.take 12 h ++ List.replicate 44 '*') (List.drop 56 h)
    rw [hlen56] at hdl
    rw [hmask]
    exact hdl
  have hm2 : (mask_api_key h).take 2 = ['$', '2'] := by
    have e1 : ((mask_api_key h).take 12).take 2 = (mask_api_key h).take 2 := by
      rw [List.take_take]; norm_num
    have e2 : (h.take 12).take 2 = h.take 2 := by
      rw [List.take_take]; norm_num
    rw [← e1, c1, e2, h2]
  refine ⟨c1, c2, c3, c4, ?_⟩
  unfold has_claimed_mask_form
  cases hcl : ((mask_api_key h).take 13 == "sk-llmweaver-".data) with
  | false => simp
  | true =>
    exfalso
    have heq : (mask_api_key h).take 13 = "sk-llmweaver-".data := by
      exact beq_iff_eq.mp hcl
    have := congrArg (List.take 2) heq
    rw [List.take_take] at this
    simp only [show (2 : Nat) ⊓ 13 = 2 by omega] at this
    rw [hm2] at this
    exact absurd this (by decide)

/-- Witness for the amended C9 theorem at the concrete bcrypt-format
value. -/
theorem claim_C9_mask_of_hash_witness :
    (mask_api_key bcryptDemoHash).take 12 = bcryptDemoHash.take 12 ∧
    (mask_api_key bcryptDemoHash).length = 60 ∧
    ((mask_api_key bcryptDemoHash).drop 12).take 44 = List.replicate 44 '*' ∧
    (mask_api_key bcryptDemoHash).drop 56 = bcryptDemoHash.drop 56 ∧
    has_claimed_mask_form (mask_api_key bcryptDemoHash) bcryptDemoHash = false :=
  claim_C9_mask_of_hash bcryptDemoHash (by decide)

/-! Claim C10: a failure while cache tracking is disabled leaves the sticky
route in place, and it can resurface after re-enabling. -/

/-- stickyDemoState is a load-balancer state with cache tracking disabled
and a sticky route (user 7, model "m") pointing at channel 1. -/
def stickyDemoState : LBState :=
  { health_status := fun _ => none,
    consecutive_failures := fun _ => 0,
    cache_routing := fun k =>
      if k = (7, "m") then some ⟨1, "m", true, 1000, 2⟩ else none,
    performance_metrics := fun _ => none,
    metrics_window_minutes := 30,
    cache_routing_ttl_minutes := 5,
    max_consecutive_failures := 3,
    default_strategy := .weighted_random,
    enable_cache_tracking := false }

/-- stickyDemoChans: channel 1 (weight 30) and channel 2 (weight 70), both
active. -/
def stickyDemoChans : List Channel :=
  [⟨1, "openai", 30, "active", [], none⟩, ⟨2, "openai", 70, "active", [], none⟩]

/-- stickyDemoMaps: both channels map the public model "m". -/
def stickyDemoMaps : List ModelMapping :=
  [⟨1, "m", none⟩, ⟨2, "m", none⟩]

/-- stickyReenabledState: record a failure of channel 1 for (user 7, "m")
while tracking is off, then re-enable cache tracking. -/
def stickyReenabledState : LBState :=
  set_cache_tracking
    (record_request_result stickyDemoState 1010 1 "m" 7 false 500 false) true

/-- Claim C10: while cache tracking is disabled, a failure record never
touches the sticky-route table (first conjunct, for every state with
tracking off); concretely, after channel 1 fails for (user 7, "m") with
tracking off, re-enabling tracking within the TTL makes the next select
return channel 1 — the channel that just failed — via the sticky route,
even though channel 2 has higher weight (second and third conjuncts). -/
theorem claim_C10_sticky_survives_failure_when_tracking_off
    (s : LBState) (now : Int) (cid : Nat) (model : String) (uid : Nat)
    (lat : Int) (hc : Bool) (hoff : s.enable_cache_tracking = false) :
    (record_request_result s now cid model uid false lat hc).cache_routing
      = s.cache_routing
    ∧ (record_request_result stickyDemoState 1010 1 "m" 7 false 500 false).consecutive_failures 1 = 1
    ∧ (select_optimal_channel stickyReenabledState 1100 "m" 7 stickyDemoChans
        stickyDemoMaps [] none none 0 0).map (fun cm => cm.1.id) = some 1 := by
  refine ⟨?_, by decide, by decide⟩
  simp [record_request_result, hoff]

/-- Witness for C10 at the concrete demo state. -/
theorem claim_C10_sticky_survives_failure_when_tracking_off_witness :
    ((record_request_result stickyDemoState 1010 1 "m" 7 false 500 false).cache_routing
      = stickyDemoState.cache_routing)
    ∧ (record_request_result stickyDemoState 1010 1 "m" 7 false 500 false).consecutive_failures 1 = 1
    ∧ (select_optimal_channel stickyReenabledState 1100 "m" 7 stickyDemoChans
        stickyDemoMaps [] none none 0 0).map (fun cm => cm.1.id) = some 1 :=
  claim_C10_sticky_survives_failure_when_tracking_off
    stickyDemoState 1010 1 "m" 7 500 false rfl

/-! Claim C2: a request for a model no active channel supports. -/

/-- Claim C2 (code bug): when no active channel supports the requested
model, `select_optimal_channel` returns `None` and the source line
`channel, mapping = await select_channel_for_model(...)` raises `TypeError`
while unpacking it; the generic exception handler surfaces HTTP 500.  The
`if not channel: raise NotFoundError` guard two lines below — the intended
`NoUpstream`/404 rejection — is unreachable.  The request is still rejected
before any upstream I/O. -/
theorem claim_C2_no_channel_typeerror_not_404 (key : ApiKeyRec)
    (req : ChatCompletionRequest) (x : Option String) (s : LBState) (now : Int)
    (chans : List Channel) (maps : List ModelMapping) (logs : List RequestLogRec)
    (r : ℚ) (i : Nat)
    (h1 : allowed_models_rejects key req.model = false)
    (h2 : budget_rejects key = false)
    (h3 : queryChannels chans maps req.model = []) :
    chat_completions key req x s now chans maps logs r i = .unhandledTypeError
    ∧ routeHttpStatus (chat_completions key req x s now chans maps logs r i) = some 500
    ∧ chat_completions key req x s now chans maps logs r i ≠ .reject .notFoundError := by
  have hsel : select_optimal_channel s now req.model key.user_id chans maps logs
      (parse_strategy x) none r i = none := by
    unfold select_optimal_channel
    simp [h3]
  have hroute : chat_completions key req x s now chans maps logs r i
      = .unhandledTypeError := by
    unfold chat_completions
    simp [h1, h2, hsel]
  exact ⟨hroute, by rw [hroute]; rfl, by rw [hroute]; exact fun hcontra => by cases hcontra⟩

/-- Witness for C2: a concrete caller with no restrictions requesting model
"m" against an empty channel table. -/
theorem claim_C2_no_channel_typeerror_not_404_witness :
    chat_completions ⟨1, 7, none, 0, 0⟩
        ⟨"m", [⟨"user", "hi"⟩], 7/10, none, false, 1⟩ none stickyDemoState 0 [] [] [] 0 0
      = .unhandledTypeError
    ∧ routeHttpStatus (chat_completions ⟨1, 7, none, 0, 0⟩
        ⟨"m", [⟨"user", "hi"⟩], 7/10, none, false, 1⟩ none stickyDemoState 0 [] [] [] 0 0)
      = some 500
    ∧ chat_completions ⟨1, 7, none, 0, 0⟩
        ⟨"m", [⟨"user", "hi"⟩], 7/10, none, false, 1⟩ none stickyDemoState 0 [] [] [] 0 0
      ≠ .reject .notFoundError :=
  claim_C2_no_channel_typeerror_not_404 _ _ none stickyDemoState 0 [] [] [] 0 0
    rfl (by decide) rfl

/-! Claim C5: the per-caller model allow-list. -/

/-- Counterexample to C5 as stated: the allow-list rejection raises
`ValidationError`, whose `status_code` is 400 — not the
Forbidden/`AuthorizationError` kind with HTTP 403 the claim names. -/
theorem claim_C5_counterexample :
    chat_completions ⟨1, 7, some ["gpt-4"], 0, 0⟩
        ⟨"m", [⟨"user", "hi"⟩], 7/10, none, false, 1⟩ none stickyDemoState 0 [] [] [] 0 0
      = .reject .validationError
    ∧ routeHttpStatus (chat_completions ⟨1, 7, some ["gpt-4"], 0, 0⟩
        ⟨"m", [⟨"user", "hi"⟩], 7/10, none, false, 1⟩ none stickyDemoState 0 [] [] [] 0 0)
      ≠ some 403
    ∧ chat_completions ⟨1, 7, some ["gpt-4"], 0, 0⟩
        ⟨"m", [⟨"user", "hi"⟩], 7/10, none, false, 1⟩ none stickyDemoState 0 [] [] [] 0 0
      ≠ .reject .authorizationError := by
  decide

/-- Claim C5, amended: a caller whose credential carries a non-empty
allow-list not containing the requested model is rejected with
`ValidationError`, surfaced as HTTP 400, regardless of the channel tables
and the load-balancer state (hence before channel selection and before any
upstream I/O). -/
theorem claim_C5_allowlist_rejects_validation_400 (key : ApiKeyRec)
    (req : ChatCompletionRequest) (x : Option String) (s : LBState) (now : Int)
    (chans : List Channel) (maps : List ModelMapping) (logs : List RequestLogRec)
    (r : ℚ) (i : Nat) (l : List String)
    (hl : key.allowed_models = some l) (hne : l ≠ [])
    (hnm : req.model ∉ l) :
    chat_completions key req x s now chans maps logs r i = .reject .validationError
    ∧ routeHttpStatus (chat_completions key req x s now chans maps logs r i)
        = some 400 := by
  have hrej : allowed_models_rejects key req.model = true := by
    unfold allowed_models_rejects
    rw [hl]
    simp only [Bool.and_eq_true, Bool.not_eq_true']
    constructor
    · simpa [List.isEmpty_iff] using hne
    · simpa using hnm
  have hroute : chat_completions key req x s now chans maps logs r i
      = .reject .validationError := by
    unfold chat_completions
    simp [hrej]
  exact ⟨hroute, by rw [hroute]; rfl⟩

/-- Witness for the amended C5 theorem. -/
theorem claim_C5_allowlist_rejects_validation_400_witness :
    chat_completions ⟨1, 7, some ["gpt-4"], 0, 0⟩
        ⟨"m", [⟨"user", "hi"⟩], 7/10, none, false, 1⟩ none stickyDemoState 0 [] [] [] 0 0
      = .reject .validationError
    ∧ routeHttpStatus (chat_completions ⟨1, 7, some ["gpt-4"], 0, 0⟩
        ⟨"m", [⟨"user", "hi"⟩], 7/10, none, false, 1⟩ none stickyDemoState 0 [] [] [] 0 0)
      = some 400 :=
  claim_C5_allowlist_rejects_validation_400 _ _ none stickyDemoState 0 [] [] [] 0 0
    ["gpt-4"] rfl (by decide) (by decide)

/-! Claim C4: post-completion accounting on the two paths. -/

/-- Claim C4 (code bug): no completion path ever appends a RequestOutcome
or calls `load_balancer.record_request_result`.  Every `log_request` call
passes the keywords `tokens_input`/`tokens_output`, which the `RequestLog`
model does not declare (conjunct 1), so in the program (`append_raises =
log_request_raises`) the streaming path produces no side-effect events at
all (conjunct 2) and the non-streaming path produces none either,
surfacing an unhandled `TypeError` instead of a response (conjuncts 3-4).
The last two conjuncts concern the counterfactual of a succeeding append
(`append_raises = false`): even then the streaming function contains no
record call on any path, while the non-streaming one records on every
outcome — the spec's requirement fails on the streaming path for a
second, independent reason. -/
theorem claim_C4_no_append_no_record (channel_id user_id : Nat)
    (model : String) (input_tokens latency_ms : Int)
    (chunks : List StreamChunkRec) (stream_error : Option String)
    (o : UnaryOutcome) :
    log_request_raises = true
    ∧ (stream_chat_completion log_request_raises channel_id user_id model
        input_tokens latency_ms chunks stream_error).2 = []
    ∧ (non_stream_chat_completion log_request_raises channel_id user_id model
        input_tokens latency_ms o).2
        = (some CompletionFailure.unhandledTypeError, [])
    ∧ (non_stream_chat_completion log_request_raises channel_id user_id model
        input_tokens latency_ms o).1 = none
    ∧ (stream_chat_completion false channel_id user_id model
        input_tokens latency_ms chunks stream_error).2.filter
          LBEvent.isLbRecord = []
    ∧ (non_stream_chat_completion false channel_id user_id model
        input_tokens latency_ms o).2.2.filter LBEvent.isLbRecord ≠ [] := by
  have hlr : log_request_raises = true := by decide
  refine ⟨hlr, ?_, ?_, ?_, ?_, ?_⟩
  · cases stream_error <;> simp [stream_chat_completion, hlr]
  · cases o <;> simp [non_stream_chat_completion, hlr]
  · cases o <;> simp [non_stream_chat_completion, hlr]
  · cases stream_error <;>
      simp [stream_chat_completion, LBEvent.isLbRecord, List.filter]
  · cases o <;>
      simp [non_stream_chat_completion, LBEvent.isLbRecord, List.filter]

/-! Claim C6: the Anthropic unary adaptation. -/

lemma getLast?_cons_eq {α : Type} (x : α) (l : List α) :
    (x :: l).getLast? = some ((l.getLast?).getD x) := by
  induction l generalizing x with
  | nil => rfl
  | cons y t ih =>
    rw [List.getLast?_cons_cons, ih y]
    cases t.getLast? <;> simp [ih]

lemma anthropic_split_go (ms : List ChatMessage) (acc : List ChatMessage)
    (sys : Option String) :
    ms.foldl
      (fun acc m =>
        if m.role == "system" then (acc.1, some m.content)
        else (acc.1 ++ [m], acc.2))
      (acc, sys)
    = (acc ++ ms.filter (fun m => !(m.role == "system")),
       match (ms.filter (fun m => m.role == "system")).getLast? with
       | some m => some m.content
       | none => sys) := by
  induction ms generalizing acc sys with
  | nil => simp
  | cons x rest ih =>
    cases hx : (x.role == "system") with
    | true =>
      simp only [List.foldl_cons, hx, if_pos, List.filter_cons, Bool.not_true, ih]
      rw [getLast?_cons_eq]
      cases hlast : (rest.filter (fun m => m.role == "system")).getLast? <;>
        simp [hlast]
    | false =>
      simp only [List.foldl_cons, hx, Bool.false_eq_true, if_false,
        List.filter_cons, Bool.not_false, ih]
      simp [List.append_assoc]

lemma anthropic_split_fst (ms : List ChatMessage) :
    (anthropic_split ms).1 = ms.filter (fun m => !(m.role == "system")) := by
  unfold anthropic_split
  rw [anthropic_split_go]
  simp

lemma anthropic_split_snd (ms : List ChatMessage) :
    (anthropic_split ms).2
      = ((ms.filter (fun m => m.role == "system")).getLast?).map
          (fun m => m.content) := by
  unfold anthropic_split
  rw [anthropic_split_go]
  cases h : (ms.filter (fun m => m.role == "system")).getLast? <;> simp [h]

lemma filter_system_decide (ms : List ChatMessage) :
    ms.filter (fun m => decide (m.role = "system"))
      = ms.filter (fun m => m.role == "system") := by
  apply List.filter_congr
  intro m _
  by_cases h : m.role = "system" <;> simp [h]

lemma filter_not_system_decide (ms : List ChatMessage) :
    ms.filter (fun m => decide (m.role ≠ "system"))
      = ms.filter (fun m => !(m.role == "system")) := by
  apply List.filter_congr
  intro m _
  by_cases h : m.role = "system" <;> simp [h]

/-- Claim C6, amended: on the Anthropic unary path, system messages are
removed from the outgoing message list and the content of the last one
(when non-empty) becomes the top-level `system` field; `max_tokens`
defaults to 4096 when the caller omits it; converting the upstream
response maps `stop_reason` (`max_tokens` to `length`, `stop_sequence` to
`stop`, others pass through) and builds a usage whose `completion_tokens`
is the upstream `output_tokens` and whose `total_tokens` is the upstream
`input_tokens + output_tokens`; but no usage — indeed no completion
response — ever reaches the client: the request-log append then raises
`TypeError` (`log_request` passes `tokens_input`/`tokens_output`, which
`RequestLog` does not declare) and the request fails with HTTP 500 before
the client response is built. -/
theorem claim_C6_anthropic_unary (req : ChatCompletionRequest)
    (upstream_model : String) (channel_id user_id : Nat) (latency_ms : Int)
    (resp : AnthropicResponseRec) (blk : AnthropicContentBlock)
    (hhead : resp.content.head? = some blk) :
    (anthropic_build_request req upstream_model).messages
        = req.messages.filter (fun m => decide (m.role ≠ "system"))
    ∧ (req.max_tokens = none →
        (anthropic_build_request req upstream_model).max_tokens = 4096)
    ∧ (∀ v, req.max_tokens = some v → v ≠ 0 →
        (anthropic_build_request req upstream_model).max_tokens = v)
    ∧ (∀ mlast,
        (req.messages.filter (fun m => decide (m.role = "system"))).getLast?
          = some mlast →
        mlast.content ≠ "" →
        (anthropic_build_request req upstream_model).system = some mlast.content)
    ∧ (req.messages.filter (fun m => decide (m.role = "system")) = [] →
        (anthropic_build_request req upstream_model).system = none)
    ∧ anthropic_unary_outcome resp
        = UnaryOutcome.success blk.text
            (some (if resp.stop_reason = "max_tokens" then "length"
                   else if resp.stop_reason = "stop_sequence" then "stop"
                   else resp.stop_reason))
            (some { prompt_tokens := resp.usage.input_tokens,
                    completion_tokens := resp.usage.output_tokens,
                    total_tokens := resp.usage.input_tokens
                      + resp.usage.output_tokens })
    ∧ (non_stream_chat_completion log_request_raises channel_id user_id req.model
          (chat_input_tokens req) latency_ms (anthropic_unary_outcome resp))
        = (none, some CompletionFailure.unhandledTypeError, []) := by
  refine ⟨?_, ?_, ?_, ?_, ?_, ?_, ?_⟩
  · unfold anthropic_build_request
    rw [filter_not_system_decide]
    exact anthropic_split_fst req.messages
  · intro hnone
    unfold anthropic_build_request pyOrInt
    rw [hnone]
  · intro v hv hv0
    unfold anthropic_build_request pyOrInt
    rw [hv]
    exact if_neg hv0
  · intro mlast hlast hcne
    simp only [anthropic_build_request]
    rw [filter_system_decide] at hlast
    have hs := anthropic_split_snd req.messages
    rw [hlast] at hs
    simp only [Option.map_some'] at hs
    rw [hs]
    have : (mlast.content == "") = false := by
      simpa using hcne
    simp [this]
  · intro hempty
    simp only [anthropic_build_request]
    rw [filter_system_decide] at hempty
    have hs := anthropic_split_snd req.messages
    rw [hempty] at hs
    simp only [List.getLast?_nil, Option.map_none'] at hs
    rw [hs]
  · unfold anthropic_unary_outcome
    rw [hhead]
    unfold map_stop_reason
    by_cases h1 : resp.stop_reason = "max_tokens"
    · simp [h1]
    · by_cases h2 : resp.stop_reason = "stop_sequence"
      · simp [h1, h2]
      · simp [h1, h2]
  · have hlr : log_request_raises = true := by decide
    cases ho : anthropic_unary_outcome resp <;>
      simp [non_stream_chat_completion, hlr]

/-- anthropicDemoReq is the request of end-to-end scenario 5 of the spec. -/
def anthropicDemoReq : ChatCompletionRequest :=
  ⟨"claude-3-sonnet", [⟨"system", "S"⟩, ⟨"user", "U"⟩], 7/10, some 50, false, 1⟩

/-- anthropicDemoResp is the upstream reply of scenario 5:
`{content:[{text:"A"}], stop_reason:"end_turn", usage:{input_tokens:7,
output_tokens:3}}`. -/
def anthropicDemoResp : AnthropicResponseRec :=
  ⟨[⟨"A"⟩], "end_turn", ⟨7, 3⟩⟩

/-- Counterexample to C6 as stated: at the scenario-5 input (upstream
usage `{input_tokens:7, output_tokens:3}`) the client receives no
completion response at all — in particular no usage reporting the
upstream `input_tokens = 7` as `prompt_tokens` — because the request-log
append raises `TypeError` (`log_request` passes
`tokens_input`/`tokens_output`, which `RequestLog` does not declare) and
the request fails with HTTP 500 before the response is built. -/
theorem claim_C6_counterexample :
    log_request_raises = true
    ∧ (non_stream_chat_completion log_request_raises 1 7 anthropicDemoReq.model
        (chat_input_tokens anthropicDemoReq) 120
        (anthropic_unary_outcome anthropicDemoResp)).1 = none
    ∧ (non_stream_chat_completion log_request_raises 1 7 anthropicDemoReq.model
        (chat_input_tokens anthropicDemoReq) 120
        (anthropic_unary_outcome anthropicDemoResp)).2.1
        = some CompletionFailure.unhandledTypeError
    ∧ completionHttpStatus CompletionFailure.unhandledTypeError = 500
    ∧ anthropicDemoResp.usage.input_tokens = 7 := by
  decide

/-- Witness for the amended C6 theorem at the scenario-5 input. -/
theorem claim_C6_anthropic_unary_witness :
    (anthropic_build_request anthropicDemoReq "claude-3-sonnet-20240229").messages
        = anthropicDemoReq.messages.filter (fun m => decide (m.role ≠ "system"))
    ∧ anthropic_unary_outcome anthropicDemoResp
        = UnaryOutcome.success "A"
            (some (if anthropicDemoResp.stop_reason = "max_tokens" then "length"
                   else if anthropicDemoResp.stop_reason = "stop_sequence" then "stop"
                   else anthropicDemoResp.stop_reason))
            (some { prompt_tokens := anthropicDemoResp.usage.input_tokens,
                    completion_tokens := anthropicDemoResp.usage.output_tokens,
                    total_tokens := anthropicDemoResp.usage.input_tokens
                      + anthropicDemoResp.usage.output_tokens })
    ∧ (non_stream_chat_completion log_request_raises 1 7 anthropicDemoReq.model
          (chat_input_tokens anthropicDemoReq) 120
          (anthropic_unary_outcome anthropicDemoResp))
        = (none, some CompletionFailure.unhandledTypeError, []) := by
  have h := claim_C6_anthropic_unary anthropicDemoReq "claude-3-sonnet-20240229"
    1 7 120 anthropicDemoResp ⟨"A"⟩ rfl
  exact ⟨h.1, h.2.2.2.2.2.1, h.2.2.2.2.2.2⟩

/-! Claim C3: the WEIGHTED_RANDOM strategy. -/

lemma cum_weight_zero (l : List ChanMap) : cum_weight l 0 = 0 := by
  simp [cum_weight]

lemma cum_weight_cons (x : ChanMap) (rest : List ChanMap) (n : Nat) :
    cum_weight (x :: rest) (n + 1) = x.1.weight + cum_weight rest n := by
  simp [cum_weight]

lemma cum_weight_length (l : List ChanMap) :
    cum_weight l l.length = total_weight l := by
  simp [cum_weight, total_weight, List.take_length]

lemma weightedPick_eq_find (l : List ChanMap) (r : ℚ) (base : Int) :
    weightedPick l r base
      = match (List.range l.length).find?
            (fun k => decide (r ≤ ((base + cum_weight l (k + 1) : Int) : ℚ))) with
        | some k => l.get? k
        | none => none := by
  induction l generalizing base with
  | nil => simp [weightedPick]
  | cons x rest ih =>
    rw [show (x :: rest).length = rest.length + 1 from rfl, List.range_succ_eq_map,
      List.find?_cons]
    by_cases hr : r ≤ ((base + x.1.weight : Int) : ℚ)
    · have hp0 : decide (r ≤ ((base + cum_weight (x :: rest) (0 + 1) : Int) : ℚ)) = true := by
        rw [cum_weight_cons, cum_weight_zero, add_zero]
        exact decide_eq_true hr
      rw [hp0]
      simp only [weightedPick, hr, if_pos]
      rfl
    · have hp0 : decide (r ≤ ((base + cum_weight (x :: rest) (0 + 1) : Int) : ℚ)) = false := by
        rw [cum_weight_cons, cum_weight_zero, add_zero]
        exact decide_eq_false hr
      rw [hp0]
      simp only [weightedPick, hr, if_false]
      rw [ih (base + x.1.weight), List.find?_map]
      have hfun : ((fun k => decide (r ≤ ((base + cum_weight (x :: rest) (k + 1) : Int) : ℚ)))
            ∘ Nat.succ)
          = fun k => decide (r ≤ (((base + x.1.weight) + cum_weight rest (k + 1) : Int) : ℚ)) := by
        funext k
        simp only [Function.comp_apply, cum_weight_cons, add_assoc]
      rw [hfun]
      cases hfind : (List.range rest.length).find?
          (fun k => decide (r ≤ (((base + x.1.weight) + cum_weight rest (k + 1) : Int) : ℚ))) with
      | none => rfl
      | some k => rfl

lemma weightedPick_zero_eq (l : List ChanMap) (r : ℚ) :
    weightedPick l r 0
      = match first_index_cum_ge l r with
        | some k => l.get? k
        | none => none := by
  rw [weightedPick_eq_find]
  unfold first_index_cum_ge
  have hfun : (fun k => decide (r ≤ ((0 + cum_weight l (k + 1) : Int) : ℚ)))
      = fun k => decide (r ≤ ((cum_weight l (k + 1) : Int) : ℚ)) := by
    funext k
    rw [zero_add]
  rw [hfun]

/-- Claim C3, amended: for a draw `r` with `0 ≤ r ≤ Σ weight` over the
health-filtered pool, the WEIGHTED_RANDOM strategy returns exactly the
first element (in iteration order) whose cumulative weight is at least `r`;
when all weights are non-negative and `Σ weight = 0`, the draw
`random.uniform(0, 0)` is pinned to `0` and the strategy deterministically
returns the first element of the pool — it does not fall back to a uniform
random pick. -/
theorem claim_C3_weighted_random (s : LBState) (now : Int)
    (channels : List ChanMap) (r : ℚ)
    (hne : channels ≠ []) (h0 : 0 ≤ r)
    (hr : r ≤ ((total_weight (filter_healthy_channels s now channels) : Int) : ℚ)) :
    (∃ k, first_index_cum_ge (filter_healthy_channels s now channels) r = some k
        ∧ strategy_weighted_random s now channels r
            = (filter_healthy_channels s now channels).get? k)
    ∧ ((∀ cm ∈ filter_healthy_channels s now channels, 0 ≤ cm.1.weight) →
        total_weight (filter_healthy_channels s now channels) = 0 →
        strategy_weighted_random s now channels r
          = (filter_healthy_channels s now channels).head?) := by
  have hpne : filter_healthy_channels s now channels ≠ [] :=
    filter_healthy_ne_nil hne
  have hlenpos : 0 < (filter_healthy_channels s now channels).length :=
    List.length_pos.mpr hpne
  have hemp : channels.isEmpty = false := by
    simpa [List.isEmpty_iff] using hne
  have hstrat : strategy_weighted_random s now channels r
      = match first_index_cum_ge (filter_healthy_channels s now channels) r with
        | some k => match (filter_healthy_channels s now channels).get? k with
          | some cm => some cm
          | none => (filter_healthy_channels s now channels).head?
        | none => (filter_healthy_channels s now channels).head? := by
    unfold strategy_weighted_random
    rw [hemp]
    simp only [Bool.false_eq_true, if_false]
    rw [weightedPick_zero_eq]
    cases hf : first_index_cum_ge (filter_healthy_channels s now channels) r with
    | none => rfl
    | some k => rfl
  have hfind : ∃ k, first_index_cum_ge (filter_healthy_channels s now channels) r
      = some k := by
    have hmem : (filter_healthy_channels s now channels).length - 1
        ∈ List.range (filter_healthy_channels s now channels).length := by
      rw [List.mem_range]; omega
    have hp : decide (r ≤ ((cum_weight (filter_healthy_channels s now channels)
        (((filter_healthy_channels s now channels).length - 1) + 1) : Int) : ℚ)) = true := by
      have hsucc : ((filter_healthy_channels s now channels).length - 1) + 1
          = (filter_healthy_channels s now channels).length := by omega
      rw [hsucc, cum_weight_length]
      exact decide_eq_true hr
    cases hfk : first_index_cum_ge (filter_healthy_channels s now channels) r with
    | some k => exact ⟨k, rfl⟩
    | none =>
      exfalso
      unfold first_index_cum_ge at hfk
      exact (List.find?_eq_none.mp hfk) _ hmem hp
  obtain ⟨k, hk⟩ := hfind
  have hklt : k < (filter_healthy_channels s now channels).length := by
    have := List.mem_of_find?_eq_some hk
    exact List.mem_range.mp this
  obtain ⟨cm, hcm⟩ := Option.isSome_iff_exists.mp
    ((List.get?_eq_get hklt) ▸ Option.isSome_some)
  constructor
  · refine ⟨k, hk, ?_⟩
    rw [hstrat, hk]
    show (match (filter_healthy_channels s now channels).get? k with
          | some cm => some cm
          | none => (filter_healthy_channels s now channels).head?)
        = (filter_healthy_channels s now channels).get? k
    rw [hcm]
  · intro hnn htot0
    have hr0 : r = 0 := by
      have hc : ((total_weight (filter_healthy_channels s now channels) : Int) : ℚ) = 0 := by
        rw [htot0]; norm_num
      exact le_antisymm (hc ▸ hr) h0
    cases hhp : filter_healthy_channels s now channels with
    | nil => exact absurd hhp hpne
    | cons c t =>
      have hw0 : 0 ≤ c.1.weight := by
        have : c ∈ filter_healthy_channels s now channels := by
          rw [hhp]; exact List.mem_cons_self _ _
        exact hnn c this
      have hp0 : decide (r ≤ ((cum_weight (c :: t) (0 + 1) : Int) : ℚ)) = true := by
        rw [cum_weight_cons, cum_weight_zero, add_zero, hr0]
        exact decide_eq_true (by exact_mod_cast hw0)
      have hfind0 : first_index_cum_ge (c :: t) r = some 0 := by
        unfold first_index_cum_ge
        rw [show (c :: t).length = t.length + 1 from rfl, List.range_succ_eq_map,
          List.find?_cons, hp0]
      rw [hstrat, hhp, hfind0]
      simp

/-- zeroWeightDemoPool: two active channels of weight 0, both mapping
model "m". -/
def zeroWeightDemoPool : List ChanMap :=
  [(⟨1, "openai", 0, "active", [], none⟩, ⟨1, "m", none⟩),
   (⟨2, "openai", 0, "active", [], none⟩, ⟨2, "m", none⟩)]

/-- Counterexample to C3 as stated: with `Σ weight = 0` the draw
`random.uniform(0, 0)` can only be `0`, and the strategy then returns the
first pool element (channel 1) — it does not behave as the RANDOM strategy,
which can return channel 2 for the same pool. -/
theorem claim_C3_counterexample :
    (strategy_weighted_random stickyDemoState 0 zeroWeightDemoPool 0).map
        (fun cm => cm.1.id) = some 1
    ∧ (strategy_random stickyDemoState 0 zeroWeightDemoPool 1).map
        (fun cm => cm.1.id) = some 2
    ∧ total_weight (filter_healthy_channels stickyDemoState 0 zeroWeightDemoPool) = 0 := by
  decide

/-- Witness for the amended C3 theorem at the zero-weight pool with the
pinned draw `r = 0`. -/
theorem claim_C3_weighted_random_witness :
    (∃ k, first_index_cum_ge (filter_healthy_channels stickyDemoState 0 zeroWeightDemoPool) 0
        = some k
        ∧ strategy_weighted_random stickyDemoState 0 zeroWeightDemoPool 0
            = (filter_healthy_channels stickyDemoState 0 zeroWeightDemoPool).get? k)
    ∧ strategy_weighted_random stickyDemoState 0 zeroWeightDemoPool 0
        = (filter_healthy_channels stickyDemoState 0 zeroWeightDemoPool).head? := by
  have h := claim_C3_weighted_random stickyDemoState 0 zeroWeightDemoPool 0
    (by decide) (by decide) (by decide)
  exact ⟨h.1, h.2 (by decide) (by decide)⟩

/-! Claim C8: performance-metrics computation. -/

lemma window_outcomes_eq_filter (logs : List RequestLogRec) (cid : Nat)
    (model : String) (since : Int) :
    window_outcomes logs cid model since
      = logs.filter (fun l =>
          l.channel_id == cid && l.model == model && since ≤ l.created_at) := by
  apply List.filter_congr
  intro l _
  by_cases h1 : l.channel_id = cid <;> by_cases h2 : l.model = model <;>
    by_cases h3 : since ≤ l.created_at <;> simp [h1, h2, h3]

/-- Claim C8: with zero outcomes in the window the metrics are the defaults
(success rate 1, all latency figures 0); otherwise the success rate is
successes over total, and over any sorted permutation of the successful
latencies the percentiles sit at the nearest-rank indices
`n/2`, `95n/100`, `99n/100` (the latter two clamped to the last element),
with the cache-hit rate the fraction of latencies below 50 ms. -/
theorem claim_C8_performance_metrics (logs : List RequestLogRec)
    (channel_id : Nat) (model : String) (now window_minutes : Int) :
    (window_outcomes logs channel_id model (now - window_minutes * 60) = [] →
      (analyze_channel_performance logs channel_id model now window_minutes).success_rate = 1
      ∧ (analyze_channel_performance logs channel_id model now window_minutes).avg_latency_ms = 0
      ∧ (analyze_channel_performance logs channel_id model now window_minutes).p50_latency_ms = 0
      ∧ (analyze_channel_performance logs channel_id model now window_minutes).p95_latency_ms = 0
      ∧ (analyze_channel_performance logs channel_id model now window_minutes).p99_latency_ms = 0
      ∧ (analyze_channel_performance logs channel_id model now window_minutes).total_requests = 0)
    ∧ (window_outcomes logs channel_id model (now - window_minutes * 60) ≠ [] →
      (analyze_channel_performance logs channel_id model now window_minutes).total_requests
          = (window_outcomes logs channel_id model (now - window_minutes * 60)).length
      ∧ (analyze_channel_performance logs channel_id model now window_minutes).success_rate
          = (((window_outcomes logs channel_id model (now - window_minutes * 60)).countP
                (fun l => l.status == "success") : Nat) : ℚ)
            / (((window_outcomes logs channel_id model (now - window_minutes * 60)).length : Nat) : ℚ)
      ∧ (∀ ls : List Int,
          ls.Perm (success_latencies logs channel_id model (now - window_minutes * 60)) →
          List.Sorted (· ≤ ·) ls → ls ≠ [] →
          (analyze_channel_performance logs channel_id model now window_minutes).p50_latency_ms
              = ((ls.getD (ls.length / 2) 0 : Int) : ℚ)
          ∧ (analyze_channel_performance logs channel_id model now window_minutes).p95_latency_ms
              = ((ls.getD (min (95 * ls.length / 100) (ls.length - 1)) 0 : Int) : ℚ)
          ∧ (analyze_channel_performance logs channel_id model now window_minutes).p99_latency_ms
              = ((ls.getD (min (99 * ls.length / 100) (ls.length - 1)) 0 : Int) : ℚ)
          ∧ (analyze_channel_performance logs channel_id model now window_minutes).cache_hit_rate
              = ((ls.countP (fun v => v < 50) : Nat) : ℚ) / ((ls.length : Nat) : ℚ))) := by
  have hweq := window_outcomes_eq_filter logs channel_id model (now - window_minutes * 60)
  constructor
  · intro hempty
    have hsel : logs.filter (fun l =>
        l.channel_id == channel_id && l.model == model
          && now - window_minutes * 60 ≤ l.created_at) = [] := by
      rw [← hweq]; exact hempty
    have hana : analyze_channel_performance logs channel_id model now window_minutes
        = { channel_id := channel_id, model := model, avg_latency_ms := 0,
            p50_latency_ms := 0, p95_latency_ms := 0, p99_latency_ms := 0,
            success_rate := 1, total_requests := 0, error_count := 0,
            cached_requests := 0, cache_hit_rate := 0, calculated_at := now } := by
      simp only [analyze_channel_performance]
      rw [hsel]
      simp
    rw [hana]
    exact ⟨rfl, rfl, rfl, rfl, rfl, rfl⟩
  · intro hne
    have hsel : logs.filter (fun l =>
        l.channel_id == channel_id && l.model == model
          && now - window_minutes * 60 ≤ l.created_at) ≠ [] := by
      rw [← hweq]; exact hne
    have hif : (logs.filter (fun l =>
        l.channel_id == channel_id && l.model == model
          && now - window_minutes * 60 ≤ l.created_at)).isEmpty = false := by
      rw [List.isEmpty_eq_false]
      exact hsel
    have hlpos : 0 < (logs.filter (fun l =>
        l.channel_id == channel_id && l.model == model
          && now - window_minutes * 60 ≤ l.created_at)).length :=
      List.length_pos.mpr hsel
    refine ⟨?_, ?_, ?_⟩
    · simp only [analyze_channel_performance, hif, Bool.false_eq_true, if_false]
      rw [hweq]
    · simp only [analyze_channel_performance, hif, Bool.false_eq_true, if_false]
      rw [if_pos hlpos, hweq, List.countP_eq_length_filter]
    · intro ls hperm hsorted hlsne
      have hlat : success_latencies logs channel_id model (now - window_minutes * 60)
          = ((logs.filter (fun l =>
              l.channel_id == channel_id && l.model == model
                && now - window_minutes * 60 ≤ l.created_at)).filter
                  (fun l => l.status == "success")).filterMap (fun l => l.latency_ms) := by
        unfold success_latencies
        rw [hweq]
      rw [hlat] at hperm
      set lat := ((logs.filter (fun l =>
          l.channel_id == channel_id && l.model == model
            && now - window_minutes * 60 ≤ l.created_at)).filter
              (fun l => l.status == "success")).filterMap (fun l => l.latency_ms) with hlatdef
      have hsortperm : (List.insertionSort (fun a b : Int => a ≤ b) lat).Perm lat :=
        List.perm_insertionSort _ _
      have hperm2 : ls.Perm (List.insertionSort (fun a b : Int => a ≤ b) lat) :=
        hperm.trans hsortperm.symm
      have hsorted2 : List.Sorted (fun a b : Int => a ≤ b)
          (List.insertionSort (fun a b : Int => a ≤ b) lat) :=
        List.sorted_insertionSort _ _
      have hls : ls = List.insertionSort (fun a b : Int => a ≤ b) lat :=
        List.eq_of_perm_of_sorted hperm2 hsorted hsorted2
      have hlatne : lat ≠ [] := by
        intro hc
        rw [hc] at hperm
        exact hlsne (List.Perm.eq_nil hperm)
      have hlatif : lat.isEmpty = false := by
        rw [List.isEmpty_eq_false]; exact hlatne
      refine ⟨?_, ?_, ?_, ?_⟩
      · simp only [analyze_channel_performance, hif, Bool.false_eq_true, if_false,
          ← hlatdef, hlatif]
        rw [hls]
      · simp only [analyze_channel_performance, hif, Bool.false_eq_true, if_false,
          ← hlatdef, hlatif]
        rw [hls]
      · simp only [analyze_channel_performance, hif, Bool.false_eq_true, if_false,
          ← hlatdef, hlatif]
        rw [hls]
      · simp only [analyze_channel_performance, hif, Bool.false_eq_true, if_false,
          ← hlatdef, hlatif]
        rw [hls]
        rw [List.Perm.countP_eq _ hsortperm, List.Perm.length_eq hsortperm,
          List.countP_eq_length_filter]
        simp

/-- metricsDemoLogs: two successes (10 ms and 100 ms) and one error for
(channel 1, model "m"), all inside a 30-minute window ending at time 200. -/
def metricsDemoLogs : List RequestLogRec :=
  [⟨1, "m", "success", some 10, 100⟩,
   ⟨1, "m", "success", some 100, 110⟩,
   ⟨1, "m", "error", none, 120⟩]

/-- Witness for C8 at the concrete window: 3 outcomes, sorted successful
latencies `[10, 100]`. -/
theorem claim_C8_performance_metrics_witness :
    (analyze_channel_performance metricsDemoLogs 1 "m" 200 30).total_requests
        = (window_outcomes metricsDemoLogs 1 "m" (200 - 30 * 60)).length
    ∧ (analyze_channel_performance metricsDemoLogs 1 "m" 200 30).p95_latency_ms
        = ((([10, 100] : List Int).getD
            (min (95 * ([10, 100] : List Int).length / 100)
              (([10, 100] : List Int).length - 1)) 0 : Int) : ℚ)
    ∧ (analyze_channel_performance metricsDemoLogs 1 "m" 200 30).cache_hit_rate
        = ((([10, 100] : List Int).countP (fun v => v < 50) : Nat) : ℚ)
          / ((([10, 100] : List Int).length : Nat) : ℚ) := by
  have h := claim_C8_performance_metrics metricsDemoLogs 1 "m" 200 30
  have h2 := h.2 (by decide)
  have heq : success_latencies metricsDemoLogs 1 "m" (200 - 30 * 60)
      = [10, 100] := by decide
  have h3 := h2.2.2 [10, 100]
    (by rw [heq]) (by decide) (by decide)
  exact ⟨h2.1, h3.2.1, h3.2.2.2⟩

/-! Claim C1: the selection invariant of `select_optimal_channel`. -/

lemma strategy_random_spec (s : LBState) (now : Int) (channels : List ChanMap)
    (i : Nat) (h : channels ≠ []) :
    ∃ cm, strategy_random s now channels i = some cm
      ∧ cm ∈ filter_healthy_channels s now channels := by
  have hemp : channels.isEmpty = false := by
    simpa [List.isEmpty_iff] using h
  unfold strategy_random
  rw [hemp]
  simp only [Bool.false_eq_true, if_false]
  exact pyChoice_spec _ _ (filter_healthy_ne_nil h)

lemma strategy_weighted_random_spec (s : LBState) (now : Int)
    (channels : List ChanMap) (r : ℚ) (h : channels ≠ []) :
    ∃ cm, strategy_weighted_random s now channels r = some cm
      ∧ cm ∈ filter_healthy_channels s now channels := by
  have hemp : channels.isEmpty = false := by
    simpa [List.isEmpty_iff] using h
  unfold strategy_weighted_random
  rw [hemp]
  simp only [Bool.false_eq_true, if_false]
  cases hw : weightedPick (filter_healthy_channels s now channels) r 0 with
  | some cm => exact ⟨cm, rfl, weightedPick_mem hw⟩
  | none =>
    cases hhp : filter_healthy_channels s now channels with
    | nil => exact absurd hhp (filter_healthy_ne_nil h)
    | cons c t =>
      exact ⟨c, rfl, List.mem_cons_self _ _⟩

lemma strategy_lowest_cost_spec (s : LBState) (now : Int)
    (channels : List ChanMap) (model : String) (logs : List RequestLogRec)
    (i : Nat) (h : channels ≠ []) :
    ∃ cm, strategy_lowest_cost s now channels model logs i = some cm
      ∧ cm ∈ filter_healthy_channels s now channels := by
  have hemp : channels.isEmpty = false := by
    simpa [List.isEmpty_iff] using h
  unfold strategy_lowest_cost
  rw [hemp]
  simp only [Bool.false_eq_true, if_false]
  have hperm := List.perm_insertionSort (fun a b : ChanMap × ℚ => a.2 ≤ b.2)
    ((filter_healthy_channels s now channels).map
      (fun cm => (cm, cost_score s now logs cm.1 model)))
  cases hs : List.insertionSort (fun a b : ChanMap × ℚ => a.2 ≤ b.2)
      ((filter_healthy_channels s now channels).map
        (fun cm => (cm, cost_score s now logs cm.1 model))) with
  | nil =>
    exfalso
    rw [hs] at hperm
    have := List.map_eq_nil.mp (hperm.nil_eq).symm
    exact filter_healthy_ne_nil h this
  | cons c0 rest =>
    rw [hs] at hperm
    have hpred : (decide (|c0.2 - c0.2| < 1 / 1000)) = true := by
      rw [sub_self, abs_zero]
      exact decide_eq_true (by norm_num)
    have hc0f : c0 ∈ (c0 :: rest).filter (fun x => decide (|x.2 - c0.2| < 1 / 1000)) :=
      List.mem_filter.mpr ⟨List.mem_cons_self _ _, hpred⟩
    have hcne : ((c0 :: rest).filter (fun x => decide (|x.2 - c0.2| < 1 / 1000))).map
        (fun x => x.1) ≠ [] :=
      List.ne_nil_of_mem (List.mem_map_of_mem _ hc0f)
    have hmemsub : ∀ x, x ∈ (if (((c0 :: rest).filter
          (fun x => decide (|x.2 - c0.2| < 1 / 1000))).map (fun x => x.1)).length > 3
        then (((c0 :: rest).filter (fun x => decide (|x.2 - c0.2| < 1 / 1000))).map
          (fun x => x.1)).take 3
        else ((c0 :: rest).filter (fun x => decide (|x.2 - c0.2| < 1 / 1000))).map
          (fun x => x.1)) →
        x ∈ filter_healthy_channels s now channels := by
      intro x hx
      have hx2 : x ∈ ((c0 :: rest).filter
          (fun x => decide (|x.2 - c0.2| < 1 / 1000))).map (fun x => x.1) := by
        by_cases hlen : (((c0 :: rest).filter
            (fun x => decide (|x.2 - c0.2| < 1 / 1000))).map (fun x => x.1)).length > 3
        · rw [if_pos hlen] at hx
          exact List.take_subset _ _ hx
        · rw [if_neg hlen] at hx
          exact hx
      obtain ⟨p, hpmem, hpx⟩ := List.mem_map.mp hx2
      have hp1 : p ∈ c0 :: rest := List.mem_of_mem_filter hpmem
      have hp2 : p ∈ (filter_healthy_channels s now channels).map
          (fun cm => (cm, cost_score s now logs cm.1 model)) := hperm.mem_iff.mp hp1
      obtain ⟨cm, hcmmem, hcmp⟩ := List.mem_map.mp hp2
      rw [← hpx, ← hcmp]
      exact hcmmem
    have hne2 : (if (((c0 :: rest).filter
        (fun x => decide (|x.2 - c0.2| < 1 / 1000))).map (fun x => x.1)).length > 3
        then (((c0 :: rest).filter (fun x => decide (|x.2 - c0.2| < 1 / 1000))).map
          (fun x => x.1)).take 3
        else ((c0 :: rest).filter (fun x => decide (|x.2 - c0.2| < 1 / 1000))).map
          (fun x => x.1)) ≠ [] := by
      by_cases hlen : (((c0 :: rest).filter
          (fun x => decide (|x.2 - c0.2| < 1 / 1000))).map (fun x => x.1)).length > 3
      · rw [if_pos hlen]
        rw [Ne, List.take_eq_nil_iff]
        push_neg
        exact ⟨by omega, hcne⟩
      · rw [if_neg hlen]
        exact hcne
    obtain ⟨x, hchoice, hxmem⟩ := pyChoice_spec _ i hne2
    exact ⟨x, hchoice, hmemsub x hxmem⟩

lemma strategy_best_performance_spec (s : LBState) (now : Int)
    (channels : List ChanMap) (model : String) (logs : List RequestLogRec)
    (i : Nat) (h : channels ≠ []) :
    ∃ cm, strategy_best_performance s now channels model logs i = some cm
      ∧ cm ∈ filter_healthy_channels s now channels := by
  have hemp : channels.isEmpty = false := by
    simpa [List.isEmpty_iff] using h
  unfold strategy_best_performance
  rw [hemp]
  simp only [Bool.false_eq_true, if_false]
  have hperm := List.perm_insertionSort (fun a b : ChanMap × ℚ => b.2 ≤ a.2)
    ((filter_healthy_channels s now channels).map
      (fun cm => (cm, performance_score s now logs cm.1.id model)))
  have hsne : List.insertionSort (fun a b : ChanMap × ℚ => b.2 ≤ a.2)
      ((filter_healthy_channels s now channels).map
        (fun cm => (cm, performance_score s now logs cm.1.id model))) ≠ [] := by
    intro hc
    rw [hc] at hperm
    exact filter_healthy_ne_nil h (List.map_eq_nil.mp (hperm.nil_eq).symm)
  have hslen : 0 < (List.insertionSort (fun a b : ChanMap × ℚ => b.2 ≤ a.2)
      ((filter_healthy_channels s now channels).map
        (fun cm => (cm, performance_score s now logs cm.1.id model)))).length :=
    List.length_pos.mpr hsne
  have hne2 : ((List.insertionSort (fun a b : ChanMap × ℚ => b.2 ≤ a.2)
      ((filter_healthy_channels s now channels).map
        (fun cm => (cm, performance_score s now logs cm.1.id model)))).take
          (min 3 (List.insertionSort (fun a b : ChanMap × ℚ => b.2 ≤ a.2)
            ((filter_healthy_channels s now channels).map
              (fun cm => (cm, performance_score s now logs cm.1.id model)))).length)).map
        (fun x => x.1) ≠ [] := by
    rw [Ne, List.map_eq_nil, List.take_eq_nil_iff]
    push_neg
    exact ⟨by omega, hsne⟩
  obtain ⟨x, hchoice, hxmem⟩ := pyChoice_spec _ i hne2
  refine ⟨x, hchoice, ?_⟩
  obtain ⟨p, hpmem, hpx⟩ := List.mem_map.mp hxmem
  have hp1 := List.take_subset _ _ hpmem
  have hp2 := hperm.mem_iff.mp hp1
  obtain ⟨cm, hcmmem, hcmp⟩ := List.mem_map.mp hp2
  rw [← hpx, ← hcmp]
  exact hcmmem

lemma sticky_route_choice_spec {s : LBState} {now : Int} {uid : Nat}
    {model : String} {channels : List ChanMap} {cm : ChanMap}
    (h : sticky_route_choice s now uid model channels = some cm) :
    cm ∈ channels ∧ is_channel_healthy s now cm.1.id = true := by
  unfold sticky_route_choice at h
  split at h
  · split at h
    · split at h
      · split at h
        · rename_i info hg hcache cm0 hfind hheal
          injection h with h'
          subst h'
          exact ⟨List.mem_of_find?_eq_some hfind, hheal⟩
        · cases h
      · cases h
    · cases h
  · cases h

lemma dispatch_spec (s : LBState) (now : Int) (channels : List ChanMap)
    (model : String) (logs : List RequestLogRec)
    (strat : LoadBalanceStrategy) (r : ℚ) (i : Nat) (h : channels ≠ []) :
    ∃ cm, dispatch_strategy s now channels model logs strat r i
      = some cm ∧ cm ∈ filter_healthy_channels s now channels := by
  unfold dispatch_strategy
  cases strat with
  | random => exact strategy_random_spec s now channels i h
  | weighted_random => exact strategy_weighted_random_spec s now channels r h
  | lowest_cost => exact strategy_lowest_cost_spec s now channels model logs i h
  | best_performance => exact strategy_best_performance_spec s now channels model logs i h

/-- Claim C1: `select_optimal_channel` returns `none` exactly on an empty
supporting pool; on a non-empty pool it always returns a member of the pool,
and whenever some pool member passes the fast-path health predicate the
returned member passes it too (degraded mode only when none does). -/
theorem claim_C1_select_invariant (s : LBState) (now : Int) (model : String)
    (user_id : Nat) (chans : List Channel) (maps : List ModelMapping)
    (logs : List RequestLogRec) (strategyOpt : Option LoadBalanceStrategy)
    (prefer_cacheOpt : Option Bool) (r : ℚ) (i : Nat) :
    (queryChannels chans maps model = [] →
      select_optimal_channel s now model user_id chans maps logs strategyOpt
        prefer_cacheOpt r i = none)
    ∧ (queryChannels chans maps model ≠ [] →
      ∃ cm, select_optimal_channel s now model user_id chans maps logs strategyOpt
          prefer_cacheOpt r i = some cm
        ∧ cm ∈ queryChannels chans maps model
        ∧ ((∃ d ∈ queryChannels chans maps model,
              is_channel_healthy s now d.1.id = true) →
            is_channel_healthy s now cm.1.id = true)) := by
  constructor
  · intro h
    unfold select_optimal_channel
    rw [h]
    simp
  · intro h
    have hemp : (queryChannels chans maps model).isEmpty = false := by
      simpa [List.isEmpty_iff] using h
    simp only [select_optimal_channel, hemp, Bool.false_eq_true, if_false]
    by_cases hcond : (prefer_cacheOpt.getD s.enable_cache_tracking
        && s.enable_cache_tracking) = true
    · rw [if_pos hcond]
      cases hss : sticky_route_choice s now user_id model
          (queryChannels chans maps model) with
      | some cm =>
        obtain ⟨hmem, hheal⟩ := sticky_route_choice_spec hss
        exact ⟨cm, rfl, hmem, fun _ => hheal⟩
      | none =>
        obtain ⟨cm, hcm, hmem⟩ := dispatch_spec s now
          (queryChannels chans maps model) model logs
          (strategyOpt.getD s.default_strategy) r i h
        exact ⟨cm, hcm, filter_healthy_mem hmem,
          fun hex => filter_healthy_all_healthy hex hmem⟩
    · rw [if_neg hcond]
      obtain ⟨cm, hcm, hmem⟩ := dispatch_spec s now
        (queryChannels chans maps model) model logs
        (strategyOpt.getD s.default_strategy) r i h
      exact ⟨cm, hcm, filter_healthy_mem hmem,
        fun hex => filter_healthy_all_healthy hex hmem⟩

/-- Witness for C1: the two-channel demo pool for model "m", weighted
strategy, concrete draws. -/
theorem claim_C1_select_invariant_witness :
    queryChannels stickyDemoChans stickyDemoMaps "m" ≠ []
    ∧ ∃ cm, select_optimal_channel stickyDemoState 0 "m" 7 stickyDemoChans
          stickyDemoMaps [] none none 0 0 = some cm
        ∧ cm ∈ queryChannels stickyDemoChans stickyDemoMaps "m"
        ∧ ((∃ d ∈ queryChannels stickyDemoChans stickyDemoMaps "m",
              is_channel_healthy stickyDemoState 0 d.1.id = true) →
            is_channel_healthy stickyDemoState 0 cm.1.id = true) :=
  ⟨by decide,
   (claim_C1_select_invariant stickyDemoState 0 "m" 7 stickyDemoChans
      stickyDemoMaps [] none none 0 0).2 (by decide)⟩
